import Mathlib

/-!
Verification development for the CanonBracketTool repository.

This file gives a shallow embedding, in Lean 4, of the parts of the
repository relevant to the frozen claims:

* `src/camera/exposure_calculator.py` (class `ExposureCalculator`):
  reference tables, shutter-speed parsing, EV arithmetic,
  `get_settings_for_ev`, `generate_brackets_by_ev`,
  `generate_brackets_direct`, `_find_closest_shutter_speed`.
* `src/camera/capture_controller.py` (class `CaptureController`):
  `_calculate_total_frames`, the worker `_execute_capture_sequence`
  (bracket loop, frame loop, focus-stack sub-sequence, fast-mode
  reconciliation, summary persistence) and `stop_capture`.

Modelling conventions:

* Python numbers are modelled by `ℚ` (the values the program handles are
  small decimals and fractions; float rounding is not modelled).
* `math.log2` produces a real number; an EV value is represented by its
  radicand `aperture² · 100 / (seconds · iso) : ℚ` wherever the code
  stores it in a data structure, and by `Real.logb 2` of that radicand
  wherever a theorem speaks about the EV value itself.  `log2` is a
  strictly monotone bijection, so this encoding is faithful.
* Python exceptions are modelled by `Option`: a code path that raises
  (and is caught by the enclosing `try`) returns `none`.
* The camera is an external device; its responses are modelled by an
  environment of response streams, one per primitive operation, consumed
  in call order.  Device calls and progress publications are recorded in
  an explicit trace.
-/

attribute [local semireducible] Rat.mul Rat.inv Rat.add Rat.sub Rat.ofScientific

namespace ExposureCalculator

/-- Splits a character list at every occurrence of `c`, mirroring the
semantics of the Python `str.split` used by the source
(`"".split` gives one empty piece, separators at the ends give empty
pieces). -/
def splitOnChar (c : Char) : List Char → List (List Char)
  | [] => [[]]
  | x :: xs =>
    let r := splitOnChar c xs
    if x = c then [] :: r
    else
      match r with
      | [] => [[x]]
      | y :: ys => (x :: y) :: ys

/-- The numeric value of a decimal digit character, `none` otherwise. -/
def digitVal (c : Char) : Option ℕ :=
  if c.isDigit then some (c.toNat - 48) else none

/-- Parses a nonempty all-digit character list as a natural number. -/
def parseDigits (cs : List Char) : Option ℕ :=
  if cs.isEmpty then none
  else
    cs.foldl
      (fun acc c =>
        match acc, digitVal c with
        | some n, some d => some (n * 10 + d)
        | _, _ => none)
      (some 0)

/-- Models Python `float(s)` restricted to the plain decimal numerals the
program manipulates (digit strings with at most one decimal point, such
as `"512"`, `"0.8"`, `"3.2"`).  Other strings — in particular
`"garbage"` — fail to parse, modelling the `ValueError` that Python
raises. -/
def parseDecimalChars (cs : List Char) : Option ℚ :=
  match splitOnChar '.' cs with
  | [ip] => (parseDigits ip).map (fun n => (n : ℚ))
  | [ip, fp] =>
    if ip.isEmpty ∧ fp.isEmpty then none
    else
      let ipv : Option ℕ := if ip.isEmpty then some 0 else parseDigits ip
      let fpv : Option (ℕ × ℕ) :=
        if fp.isEmpty then some (0, 0)
        else (parseDigits fp).map (fun n => (n, fp.length))
      match ipv, fpv with
      | some n, some (m, k) => some ((n : ℚ) + (m : ℚ) / (10 : ℚ) ^ k)
      | _, _ => none
  | _ => none

/-- `parseDecimal` on a string. -/
def parseDecimal (s : String) : Option ℚ :=
  parseDecimalChars s.data

/-- Models the shutter-speed-to-seconds conversion the source repeats at
several places:
`if "/" in s: seconds = float(parts[0]) / float(parts[1]) else: seconds = float(s)`.
A division by zero raises `ZeroDivisionError` in Python, modelled as
`none`; a `split` with more than two pieces uses only the first two,
exactly as the Python indexing `parts[0]`, `parts[1]` does. -/
def parseShutterSpeed (s : String) : Option ℚ :=
  if '/' ∈ s.data then
    match splitOnChar '/' s.data with
    | p0 :: p1 :: _ =>
      match parseDecimalChars p0, parseDecimalChars p1 with
      | some n, some d => if d = 0 then none else some (n / d)
      | _, _ => none
    | _ => none
  else parseDecimalChars s.data

/-- `ISO_VALUES` from the source (standard full-stop ISO values). -/
def ISO_VALUES : List ℚ :=
  [50, 100, 200, 400, 800, 1600, 3200, 6400, 12800, 25600, 51200, 102400]

/-- `APERTURE_VALUES` from the source (standard full-stop f-stops). -/
def APERTURE_VALUES : List ℚ :=
  [1.0, 1.4, 2.0, 2.8, 4.0, 5.6, 8.0, 11.0, 16.0, 22.0, 32.0]

/-- `SHUTTER_SPEEDS` from the source (standard full-stop shutter speeds,
as strings, longest first). -/
def SHUTTER_SPEEDS : List String :=
  ["512", "256", "128", "64", "30", "15", "8", "4", "2", "1", "1/2", "1/4",
   "1/8", "1/15", "1/30", "1/60", "1/125", "1/250", "1/500", "1/1000",
   "1/2000", "1/4000", "1/8000"]

/-- `ISO_VALUES_THIRD` from the source (third-stop ISO values). -/
def ISO_VALUES_THIRD : List ℚ :=
  [50, 64, 80, 100, 125, 160, 200, 250, 320, 400, 500, 640, 800, 1000, 1250,
   1600, 2000, 2500, 3200, 4000, 5000, 6400, 8000, 10000, 12800, 16000, 20000,
   25600, 32000, 40000, 51200, 64000, 80000, 102400]

/-- `APERTURE_VALUES_THIRD` from the source (third-stop apertures). -/
def APERTURE_VALUES_THIRD : List ℚ :=
  [1.0, 1.1, 1.2, 1.4, 1.6, 1.8, 2.0, 2.2, 2.5, 2.8, 3.2, 3.5, 4.0, 4.5, 5.0,
   5.6, 6.3, 7.1, 8.0, 9.0, 10.0, 11.0, 13.0, 14.0, 16.0, 18.0, 20.0, 22.0,
   25.0, 29.0, 32.0]

/-- `SHUTTER_SPEEDS_THIRD` from the source (third-stop shutter speeds). -/
def SHUTTER_SPEEDS_THIRD : List String :=
  ["512", "400", "320", "256", "200", "160", "128", "100", "80", "64", "50",
   "40", "30", "25", "20", "15", "13", "10", "8", "6", "5", "4", "3.2", "2.5",
   "2", "1.6", "1.3", "1", "0.8", "0.6", "0.5", "0.4", "0.3", "1/4", "1/5",
   "1/6", "1/8", "1/10", "1/13", "1/15", "1/20", "1/25", "1/30", "1/40",
   "1/50", "1/60", "1/80", "1/100", "1/125", "1/160", "1/200", "1/250",
   "1/320", "1/400", "1/500", "1/640", "1/800", "1/1000", "1/1250", "1/1600",
   "1/2000", "1/2500", "1/3200", "1/4000", "1/5000", "1/6400", "1/8000"]

/-- Models `min(table, key=lambda x: abs(x - v))`: the first element of the
table at minimal absolute distance from `v`.  (`List.argmin` returns the
first minimiser, exactly as Python `min` does; the `getD` default is
never used on the nonempty reference tables.) -/
def closestValue (l : List ℚ) (v : ℚ) : ℚ :=
  (l.argmin (fun x => |x - v|)).getD v

/-- The seconds value of a shutter-speed table entry (every entry of both
shutter tables parses; the `getD` default is never used on them). -/
def shutterToSeconds (s : String) : ℚ :=
  (parseShutterSpeed s).getD 0

/-- `_find_closest_shutter_speed` from the source: the entry of the
full-stop table `SHUTTER_SPEEDS` whose seconds value is closest to the
given seconds value (first minimiser, like the Python `min` over
indices). -/
def find_closest_shutter_speed (seconds : ℚ) : String :=
  (SHUTTER_SPEEDS.argmin (fun sp => |shutterToSeconds sp - seconds|)).getD "1"

/-- The radicand of `calculate_ev`:
`aperture * aperture * 100 / (seconds * iso)` when it is defined and
positive, `none` where the Python computation raises
(`ZeroDivisionError` on a zero denominator, `ValueError` from
`math.log2` on a nonpositive argument, parse failure on the shutter
string) and `calculate_ev` hence returns `None`.
The EV value itself is `Real.logb 2` of this radicand. -/
def evRadicand (iso aperture : ℚ) (shutter_speed : String) : Option ℚ :=
  match parseShutterSpeed shutter_speed with
  | none => none
  | some secs =>
    if secs * iso = 0 then none
    else
      let q := aperture * aperture * 100 / (secs * iso)
      if 0 < q then some q else none

/-- `calculate_ev` from the source: `log2(aperture² · 100 / (seconds · iso))`,
`None` when the computation raises. -/
noncomputable def calculate_ev (iso aperture : ℚ) (shutter_speed : String) :
    Option ℝ :=
  (evRadicand iso aperture shutter_speed).map (fun q => Real.logb 2 (q : ℝ))

/-- The result record of `get_settings_for_ev` (the dict
`{iso, aperture, shutter_speed, display_shutter}` the source returns). -/
structure SettingsForEv where
  iso : ℚ
  aperture : ℚ
  shutter_speed : String
  display_shutter : String

/-- `min(table, key=lambda x: abs(x - v))` against a real-valued target
(the solved aperture or ISO is a float in the source). -/
noncomputable def closestValueReal (l : List ℚ) (v : ℝ) : ℚ :=
  (l.argmin (fun (x : ℚ) => |(x : ℝ) - v|)).getD 0

/-- `_find_closest_shutter_speed` applied to a real-valued seconds value
(as called from the aperture-priority branch of `get_settings_for_ev`). -/
noncomputable def find_closest_shutter_speed_real (seconds : ℝ) : String :=
  (SHUTTER_SPEEDS.argmin (fun sp => |(shutterToSeconds sp : ℝ) - seconds|)).getD "1"

/-- `get_settings_for_ev` from the source.  `2 ^ ev` is real
exponentiation.  Failure cases (`None` after the caught exception):
in the aperture branch Python divides by `iso * 2**ev` and raises
`ZeroDivisionError` exactly when `iso = 0`; in the shutter branch
`math.sqrt` raises `ValueError` exactly when its argument
`iso * (1/60) * 2**ev / 100` is negative.  The final `else` branch covers
`priority = "iso"` and any other priority string, as in the source. -/
noncomputable def get_settings_for_ev (ev : ℝ) (iso : ℚ) (priority : String)
    (preferred_aperture : ℚ) : Option SettingsForEv :=
  if priority = "aperture" then
    if iso = 0 then none
    else
      let aperture := closestValue APERTURE_VALUES preferred_aperture
      let shutter_seconds : ℝ :=
        ((aperture * aperture * 100 : ℚ) : ℝ) / ((iso : ℝ) * (2 : ℝ) ^ ev)
      let shutter_speed := find_closest_shutter_speed_real shutter_seconds
      some { iso := iso, aperture := aperture, shutter_speed := shutter_speed,
             display_shutter := shutter_speed }
  else if priority = "shutter" then
    let preferred_seconds : ℚ := shutterToSeconds "1/60"
    let radArg : ℝ := (iso : ℝ) * (preferred_seconds : ℝ) * (2 : ℝ) ^ ev / 100
    if radArg < 0 then none
    else
      let aperture := closestValueReal APERTURE_VALUES (Real.sqrt radArg)
      some { iso := iso, aperture := aperture, shutter_speed := "1/60",
             display_shutter := "1/60" }
  else
    let aperture : ℚ := 8.0
    let shutter_seconds : ℚ := shutterToSeconds "1/125"
    let iso_value : ℝ :=
      ((aperture * aperture * 100 : ℚ) : ℝ) / ((shutter_seconds : ℝ) * (2 : ℝ) ^ ev)
    let iso2 := closestValueReal ISO_VALUES iso_value
    some { iso := iso2, aperture := aperture, shutter_speed := "1/125",
           display_shutter := "1/125" }

/-- A base settings dict as consumed by `generate_brackets_by_ev`. -/
structure BaseSettings where
  iso : ℚ
  aperture : ℚ
  shutter_speed : String

/-- One entry of the list returned by `generate_brackets_by_ev`: the
settings dict of `get_settings_for_ev` extended with the bracket name
and the signed EV offset `ev_diff = base_ev - ev`. -/
structure EvBracket where
  settings : SettingsForEv
  name : String
  ev_diff : ℝ

/-- The Under/Over/Base discriminator of the bracket label.  The Python
label also embeds the numeric offset via float formatting; that
formatting is abstracted away here, only the discriminator is kept. -/
noncomputable def bracketName (ev_diff : ℝ) : String :=
  if 0 < ev_diff then "Under" else if ev_diff < 0 then "Over" else "Base Exposure"

/-- The parity-dependent starting EV of the bracket ladder, exactly as
`generate_brackets_by_ev` computes it: for an odd count
`base_ev + ev_steps * (count / 2)` (integer division), for an even
count `base_ev + ev_steps * ((count - 1) / 2) + ev_steps / 2`. -/
noncomputable def ladderStart (base_ev ev_steps : ℝ) (num_brackets : ℕ) : ℝ :=
  if num_brackets % 2 = 1 then
    base_ev + ev_steps * ((num_brackets / 2 : ℕ) : ℝ)
  else
    base_ev + ev_steps * (((num_brackets - 1) / 2 : ℕ) : ℝ) + ev_steps / 2

/-- `generate_brackets_by_ev` from the source: computes the base EV, the
parity-dependent starting EV, the descending EV ladder, and keeps the
entries for which `get_settings_for_ev` returns a dict.  (The enclosing
`try` returns `[]` when `calculate_ev` fails, via the `if base_ev is
None` check.) -/
noncomputable def generate_brackets_by_ev (base : BaseSettings) (ev_steps : ℝ)
    (num_brackets : ℕ) (priority : String) : List EvBracket :=
  match calculate_ev base.iso base.aperture base.shutter_speed with
  | none => []
  | some base_ev =>
    let start_ev : ℝ := ladderStart base_ev ev_steps num_brackets
    let ev_values : List ℝ :=
      (List.range num_brackets).map (fun i : ℕ => start_ev - (i : ℝ) * ev_steps)
    ev_values.filterMap (fun ev =>
      (get_settings_for_ev ev base.iso priority base.aperture).map (fun st =>
        { settings := st, name := bracketName (base_ev - ev),
          ev_diff := base_ev - ev }))

/-- A caller-supplied bracket dict as seen by `generate_brackets_direct`.
The four keys the function reads or writes are explicit fields (absent
key = `none`); every other key of the dict is carried opaquely in
`extra`.  The `ev` field stores the EV radicand (see the header note on
EV representation). -/
structure Bracket where
  iso : Option ℚ
  aperture : Option ℚ
  shutter_speed : Option String
  ev : Option ℚ
  extra : List (String × String)
deriving DecidableEq, Repr

/-- The tail of the `generate_brackets_direct` loop body, after shutter
validation: computes the EV of the (mutated) bracket and attaches it
under the `ev` key when the computation succeeds; the bracket is then
appended to the output in either case. -/
def finishBracket (b : Bracket) (iso ap : ℚ) (sh : String) : Bracket × Bool :=
  match evRadicand iso ap sh with
  | some q => ({ b with ev := some q }, true)
  | none => (b, true)

/-- The loop body of `generate_brackets_direct` for one input dict.
Returns the post-state of the caller's dict (the code mutates it in
place) and whether it was appended to the returned list.  Mirrors the
source order: presence check, ISO snap, aperture snap, shutter
validation (with silent drop of an unparseable shutter string — note the
ISO and aperture writes have already happened by then), EV attachment. -/
def validateBracket (b : Bracket) : Bracket × Bool :=
  match b.iso, b.aperture, b.shutter_speed with
  | some iso0, some ap0, some sh0 =>
    let iso1 := if iso0 ∈ ISO_VALUES_THIRD then iso0 else closestValue ISO_VALUES_THIRD iso0
    let ap1 := if ap0 ∈ APERTURE_VALUES_THIRD then ap0 else closestValue APERTURE_VALUES_THIRD ap0
    let b1 := { b with iso := some iso1, aperture := some ap1 }
    if sh0 ∈ SHUTTER_SPEEDS_THIRD then
      finishBracket b1 iso1 ap1 sh0
    else
      match parseShutterSpeed sh0 with
      | none => (b1, false)
      | some secs =>
        let sh1 := find_closest_shutter_speed secs
        finishBracket { b1 with shutter_speed := some sh1 } iso1 ap1 sh1
  | _, _, _ => (b, false)

/-- `generate_brackets_direct` from the source: the list it returns.
Its elements are the accepted input dicts themselves (mutated in
place), in input order. -/
def generate_brackets_direct (l : List Bracket) : List Bracket :=
  ((l.map validateBracket).filter (fun r => r.2)).map (fun r => r.1)

/-- The contents of the caller's own list after
`generate_brackets_direct` returns: every dict, accepted or not, in its
post-call state (the function mutates entries in place and never copies
them). -/
def generate_brackets_direct_post (l : List Bracket) : List Bracket :=
  (l.map validateBracket).map (fun r => r.1)

example : parseShutterSpeed "1/125" = some (1 / 125) := by decide
example : parseShutterSpeed "garbage" = none := by decide
example : parseShutterSpeed "3.2" = some (16 / 5) := by decide
example : evRadicand 100 8 "1/125" = some 8000 := by decide
example : evRadicand 100 8 "64" = some 1 := by decide
example : find_closest_shutter_speed (1 / 90) = "1/125" := by decide
example : closestValue ISO_VALUES_THIRD 90 = 80 := by decide
example :
    generate_brackets_direct
      [{ iso := some 100, aperture := some 8, shutter_speed := some "garbage",
         ev := none, extra := [] }] = [] := by decide
example :
    generate_brackets_direct
      [{ iso := some 100, aperture := some 8, shutter_speed := some "1/90",
         ev := none, extra := [("name", "X")] }] =
      [{ iso := some 100, aperture := some 8, shutter_speed := some "1/125",
         ev := some 8000, extra := [("name", "X")] }] := by decide

end ExposureCalculator

namespace CaptureController

/-- Session status strings of the capture controller. -/
inductive Status
  | initializing
  | running
  | stopping
  | stopped
  | downloading
  | completed
  | error
deriving DecidableEq, Repr

/-- The `progress` sub-dict of a capture session. -/
structure Progress where
  current_bracket : ℕ
  total_brackets : ℕ
  current_frame : ℕ
  total_frames : ℕ
  completed_frames : ℕ
  failed_frames : ℕ
deriving DecidableEq, Repr

/-- The `focus_stack` part of the capture plan.  The source reads each
field with a default (`enabled` False, `steps` 10, `step_size` 3,
`speed` 2, `direction` near); those `dict.get` defaults are applied when
this record is built, so the record always carries concrete values. -/
structure FocusStackConfig where
  enabled : Bool
  steps : ℕ
  step_size : ℤ
  speed : ℤ
  direction : String
deriving DecidableEq, Repr

/-- One bracket of the capture plan. -/
structure PlanBracket where
  name : String
  iso : ℚ
  aperture : ℚ
  shutter_speed : String
  frames : ℕ
  delay : ℚ
deriving DecidableEq, Repr

/-- A capture plan (`capture_data`). -/
structure Plan where
  capture_mode : String
  brackets : List PlanBracket
  focus_stack : FocusStackConfig
deriving DecidableEq, Repr

/-- The settings dict passed to `camera.apply_settings` for a bracket. -/
structure Settings where
  iso : ℚ
  aperture : ℚ
  shutter_speed : String
deriving DecidableEq, Repr

/-- The summary record `_save_capture_info` writes to
`capture_info.json`.  The wall-clock `start_time`/`end_time` fields are
not modelled (they carry no program logic). -/
structure SaveRecord where
  id : String
  status : Status
  capture_mode : String
  brackets : List PlanBracket
  progress : Progress
  errors : List String
  version : String
deriving DecidableEq, Repr

/-- The mutable per-session record (`capture_info`), plus a `saved`
field recording the summary persisted by `_save_capture_info`
(`none` = nothing was written to the save directory). -/
structure CaptureState where
  id : String
  status : Status
  progress : Progress
  errors : List String
  results : List String
  images_before : ℕ
  saved : Option SaveRecord
deriving DecidableEq, Repr

/-- One primitive device call issued by the worker, with the result the
device returned. -/
inductive DeviceCall
  | applySettings (s : Settings) (ok : Bool)
  | takePicture (ok : Bool)
  | adjustFocus (step : ℤ) (ok : Bool)
deriving DecidableEq, Repr

/-- One observable action of the worker: a device call, or a progress
publication (`_send_update`). -/
inductive TraceItem
  | dev (c : DeviceCall)
  | publish (st : Status) (p : Progress)
deriving DecidableEq, Repr

/-- The environment of a worker run: the responses the camera gives to
the n-th call of each primitive (consumed in call order), and the
schedule of the cooperative stop flag: `stop_observed k` is true when
the k-th top-of-frame status check reads `stopping` (i.e. `stop_capture`
has flipped the shared status by then). -/
structure Env where
  apply_results : ℕ → Bool
  picture_results : ℕ → Bool
  focus_results : ℕ → Bool
  stop_observed : ℕ → Bool
  session_results : ℕ → Bool
  count_results : ℕ → Option ℕ
  download_ok : Bool
  download_files : List String

/-- Per-primitive call counters, threading the response streams. -/
structure Counters where
  applies : ℕ
  pictures : ℕ
  focuses : ℕ
  checks : ℕ
  sessions : ℕ
  counts : ℕ
deriving DecidableEq, Repr

/-- All-zero counters. -/
def Counters.init : Counters := ⟨0, 0, 0, 0, 0, 0⟩

/-- `_calculate_total_frames` from the source: a running sum over the
brackets, each contributing `frames * (steps + 1)` when focus stacking
is enabled and `frames` otherwise. -/
def calculate_total_frames (p : Plan) : ℕ :=
  p.brackets.foldl
    (fun total b =>
      if p.focus_stack.enabled then total + b.frames * (p.focus_stack.steps + 1)
      else total + b.frames)
    0

/-- The progress dict built by `start_capture` at session creation. -/
def initialProgress (p : Plan) : Progress :=
  { current_bracket := 0, total_brackets := p.brackets.length, current_frame := 0,
    total_frames := calculate_total_frames p, completed_frames := 0,
    failed_frames := 0 }

/-- One `take_picture` call with its bookkeeping: on success increment
`completed_frames`, on failure increment `failed_frames` and append an
error, then publish. -/
def shoot (env : Env) (c : Counters) (s : CaptureState) (errMsg : String) :
    Counters × CaptureState × List TraceItem :=
  let ok := env.picture_results c.pictures
  let c2 := { c with pictures := c.pictures + 1 }
  let s2 :=
    if ok then
      { s with progress :=
          { s.progress with completed_frames := s.progress.completed_frames + 1 } }
    else
      let sE := { s with errors := s.errors ++ [errMsg] }
      { sE with progress :=
          { sE.progress with failed_frames := sE.progress.failed_frames + 1 } }
  (c2, s2, [.dev (.takePicture ok), .publish s2.status s2.progress])

/-- The per-frame focus step direction: `+step_size` for direction
`"near"`, `-step_size` otherwise (the source tests `== 'near'`). -/
def stepDirection (fs : FocusStackConfig) : ℤ :=
  if fs.direction = "near" then fs.step_size else -fs.step_size

/-- The signed step actually passed to `adjust_focus`: the direction
sign with magnitude `speed` when the direction step is nonzero, the
(zero) direction step otherwise. -/
def stepValue (fs : FocusStackConfig) : ℤ :=
  let sd := stepDirection fs
  if 0 < sd.natAbs then (if 0 < sd then fs.speed else -fs.speed) else sd

/-- The `for focus_idx in range(focus_stack_steps)` loop of the
focus-stack sub-sequence: shoot at the current position, and when not at
the last position move the focus by `stepValue`; a failed move appends
an error and breaks out of the loop (abandoning the remaining planned
steps), a successful move adds its signed step to the running
`total_movement`. -/
def focusLoop (env : Env) (fs : FocusStackConfig) :
    List ℕ → Counters → CaptureState → ℤ →
      Counters × CaptureState × ℤ × List TraceItem
  | [], c, s, total => (c, s, total, [])
  | idx :: rest, c, s, total =>
    let r1 := shoot env c s "Failed to take picture (focus stack)"
    let c1 := r1.1
    let s1 := r1.2.1
    let t1 := r1.2.2
    if idx < fs.steps - 1 then
      let sv := stepValue fs
      let ok := env.focus_results c1.focuses
      let c2 := { c1 with focuses := c1.focuses + 1 }
      if ok then
        let r3 := focusLoop env fs rest c2 s1 (total + sv)
        (r3.1, r3.2.1, r3.2.2.1, t1 ++ [.dev (.adjustFocus sv true)] ++ r3.2.2.2)
      else
        (c2, { s1 with errors := s1.errors ++ ["Failed to adjust focus"] }, total,
         t1 ++ [.dev (.adjustFocus sv false)])
    else
      let r3 := focusLoop env fs rest c1 s1 total
      (r3.1, r3.2.1, r3.2.2.1, t1 ++ r3.2.2.2)

/-- The whole focus-stack sub-sequence for one frame: the stack loop,
then (when the accumulated movement is nonzero) a single compensating
move of `-total_movement` whose result is ignored, then one additional
exposure at the reset position, then the defensive `adjust_focus(0)`
centering call whose result is also ignored. -/
def focusStackFrame (env : Env) (fs : FocusStackConfig) (c : Counters)
    (s : CaptureState) : Counters × CaptureState × List TraceItem :=
  let r1 := focusLoop env fs (List.range fs.steps) c s 0
  let c1 := r1.1
  let s1 := r1.2.1
  let total := r1.2.2.1
  let t1 := r1.2.2.2
  let c2 := if total ≠ 0 then { c1 with focuses := c1.focuses + 1 } else c1
  let t2 : List TraceItem :=
    if total ≠ 0 then [.dev (.adjustFocus (-total) (env.focus_results c1.focuses))]
    else []
  let r3 := shoot env c2 s1 "Failed to take picture (reset focus position)"
  let c3 := r3.1
  let s3 := r3.2.1
  let t3 := r3.2.2
  let c4 := { c3 with focuses := c3.focuses + 1 }
  (c4, s3, t1 ++ t2 ++ t3 ++ [.dev (.adjustFocus 0 (env.focus_results c3.focuses))])

/-- The `for frame_idx in range(frames)` loop: at the top of each
iteration the worker checks for a pending stop request (transitioning to
`stopped` and returning at once when it sees one), then advances
`current_frame`, publishes, and executes either a focus-stack
sub-sequence or a single exposure.  The returned flag reports the early
stop to the caller (in the source this is a `return` from the worker
function). -/
def framesLoop (env : Env) (fs : FocusStackConfig) :
    List ℕ → Counters → CaptureState →
      Counters × CaptureState × List TraceItem × Bool
  | [], c, s => (c, s, [], false)
  | fidx :: rest, c, s =>
    let stopping := env.stop_observed c.checks
    let c1 := { c with checks := c.checks + 1 }
    if stopping then
      let s1 := { s with status := Status.stopped }
      (c1, s1, [.publish s1.status s1.progress], true)
    else
      let s1 := { s with progress := { s.progress with current_frame := fidx + 1 } }
      let t0 := [TraceItem.publish s1.status s1.progress]
      let r1 :=
        if fs.enabled then focusStackFrame env fs c1 s1
        else shoot env c1 s1 "Failed to take picture"
      let r2 := framesLoop env fs rest r1.1 r1.2.1
      (r2.1, r2.2.1, t0 ++ r1.2.2 ++ r2.2.2.1, r2.2.2.2)

/-- The `for bracket_idx, bracket in enumerate(brackets)` loop: advance
`current_bracket`, reset `current_frame` to 0, publish, apply the
bracket settings; on rejection append an error, publish, and continue
with the next bracket (no retry, no frames for this bracket); on
success run the frame loop, propagating an early stop. -/
def bracketsLoop (env : Env) (fs : FocusStackConfig) :
    List (ℕ × PlanBracket) → Counters → CaptureState →
      Counters × CaptureState × List TraceItem × Bool
  | [], c, s => (c, s, [], false)
  | (bidx, b) :: rest, c, s =>
    let s1 := { s with progress :=
      { s.progress with current_bracket := bidx + 1, current_frame := 0 } }
    let t0 := [TraceItem.publish s1.status s1.progress]
    let bsettings : Settings :=
      { iso := b.iso, aperture := b.aperture, shutter_speed := b.shutter_speed }
    let ok := env.apply_results c.applies
    let c1 := { c with applies := c.applies + 1 }
    let tA := [TraceItem.dev (.applySettings bsettings ok)]
    if ok then
      let r1 := framesLoop env fs (List.range b.frames) c1 s1
      if r1.2.2.2 then (r1.1, r1.2.1, t0 ++ tA ++ r1.2.2.1, true)
      else
        let r2 := bracketsLoop env fs rest r1.1 r1.2.1
        (r2.1, r2.2.1, t0 ++ tA ++ r1.2.2.1 ++ r2.2.2.1, r2.2.2.2)
    else
      let s2 := { s1 with errors := s1.errors ++
        ["Failed to apply settings for bracket " ++ toString (bidx + 1)] }
      let t1 := [TraceItem.publish s2.status s2.progress]
      let r2 := bracketsLoop env fs rest c1 s2
      (r2.1, r2.2.1, t0 ++ tA ++ t1 ++ r2.2.2.1, r2.2.2.2)

/-- `_save_capture_info`: records the summary written to the save
directory (called while the status is still `running`, or `downloading`
in fast mode). -/
def saveCaptureInfo (plan : Plan) (s : CaptureState) : CaptureState :=
  let rec0 : SaveRecord :=
    { id := s.id, status := s.status, capture_mode := plan.capture_mode,
      brackets := plan.brackets, progress := s.progress, errors := s.errors,
      version := "1.1" }
  { s with saved := some rec0 }

/-- The worker's session record at the moment it transitions to
`running` (as created by `start_capture`, with the status already
advanced by the worker). -/
def workerInit (id : String) (plan : Plan) : CaptureState :=
  { id := id, status := Status.running, progress := initialProgress plan,
    errors := [], results := [], images_before := 0, saved := none }

/-- The fast-mode pre-capture watermark step (lines 166-187 of the
source): in fast mode count the images already on the camera and store
the count (a raised count is caught and the watermark set to 0); in
standard mode do nothing that affects the modelled state. -/
def watermark (env : Env) (fast : Bool) (c : Counters) (s : CaptureState) :
    Counters × CaptureState :=
  if fast then
    match env.count_results c.counts with
    | some n => ({ c with counts := c.counts + 1 }, { s with images_before := n })
    | none => ({ c with counts := c.counts + 1 }, { s with images_before := 0 })
  else (c, s)

/-- `_execute_capture_sequence` from the source, as a function of the
environment: transition to `running` and publish; start a fresh device
session (failure is fatal to the session); in fast mode record the
on-camera image count watermark (a raised count is caught and the
watermark set to 0); run the bracket loop; on an early stop return at
once.  Afterwards, in fast mode: transition to `downloading`, publish,
restart the device session (failure only appends an error), count the
images again — when this count raises, the `except` arm sets
`new_images = 0` but the unconditional recomputation on the next source
line reads the never-assigned `images_after` and raises `NameError`,
which the outer handler turns into status `error` (nothing is saved);
when the count succeeds and `new_images <= 0` the session completes
early without writing a summary; otherwise the new images are
downloaded (a failure appends an error), the summary is saved and the
session completes.  In standard mode the summary is saved and the
session completes. -/
def execute_capture_sequence (env : Env) (id : String) (plan : Plan) :
    Counters × CaptureState × List TraceItem :=
  let s0 := workerInit id plan
  let t0 := [TraceItem.publish s0.status s0.progress]
  let c0 : Counters := Counters.init
  let okSess := env.session_results c0.sessions
  let c1 := { c0 with sessions := c0.sessions + 1 }
  if okSess then
    let fast := plan.capture_mode = "fast"
    let cs2 := watermark env fast c1 s0
    let r1 := bracketsLoop env plan.focus_stack plan.brackets.enum cs2.1 cs2.2
    let c3 := r1.1
    let s3 := r1.2.1
    let t1 := r1.2.2.1
    if r1.2.2.2 then (c3, s3, t0 ++ t1)
    else if fast then
      let s4 := { s3 with status := Status.downloading }
      let t2 := [TraceItem.publish s4.status s4.progress]
      let okSess2 := env.session_results c3.sessions
      let c4 := { c3 with sessions := c3.sessions + 1 }
      let s5 :=
        if okSess2 then s4
        else { s4 with errors := s4.errors ++ ["Failed to start session for download"] }
      match env.count_results c4.counts with
      | none =>
        let c5 := { c4 with counts := c4.counts + 1 }
        let s6a := { s5 with errors := s5.errors ++
          ["Error executing capture: name images_after is not defined"] }
        let s6 := { s6a with status := Status.error }
        (c5, s6, t0 ++ t1 ++ t2 ++ [TraceItem.publish s6.status s6.progress])
      | some after =>
        let c5 := { c4 with counts := c4.counts + 1 }
        let newImages : ℤ := (after : ℤ) - (s5.images_before : ℤ)
        if newImages ≤ 0 then
          let s6 := { s5 with status := Status.completed }
          (c5, s6, t0 ++ t1 ++ t2 ++ [TraceItem.publish s6.status s6.progress])
        else
          let s6 :=
            if env.download_ok then { s5 with results := env.download_files }
            else { s5 with errors := s5.errors ++ ["Failed to download images"] }
          let s7 := saveCaptureInfo plan s6
          let s8 := { s7 with status := Status.completed }
          (c5, s8, t0 ++ t1 ++ t2 ++ [TraceItem.publish s8.status s8.progress])
    else
      let s4 := saveCaptureInfo plan s3
      let s5 := { s4 with status := Status.completed }
      (c3, s5, t0 ++ t1 ++ [TraceItem.publish s5.status s5.progress])
  else
    let s1a := { s0 with errors := s0.errors ++ ["Failed to start capture session"] }
    let s1 := { s1a with status := Status.error }
    (c1, s1, t0 ++ [TraceItem.publish s1.status s1.progress])

/-- `stop_capture` from the source, over the registry of sessions
(modelled by their statuses, the only field `stop_capture` reads or
writes): returns `True` and flips the status to `stopping` only when the
session exists and is currently `running`; otherwise returns `False`
and changes nothing. -/
def stop_capture (captures : List (String × Status)) (id : String) :
    Bool × List (String × Status) :=
  match captures.lookup id with
  | none => (false, captures)
  | some st =>
    if st = Status.running then
      (true, captures.map (fun kv => if kv.1 = id then (kv.1, Status.stopping) else kv))
    else (false, captures)

/-- The progress snapshots published over a trace, in order. -/
def publishedProgress (t : List TraceItem) : List Progress :=
  t.filterMap (fun i =>
    match i with
    | .publish _ p => some p
    | _ => none)

/-- The `apply_settings` calls of a trace, with their results. -/
def applyCalls (t : List TraceItem) : List (Settings × Bool) :=
  t.filterMap (fun i =>
    match i with
    | .dev (.applySettings s ok) => some (s, ok)
    | _ => none)

/-- The `take_picture` calls of a trace, with their results. -/
def pictureCalls (t : List TraceItem) : List Bool :=
  t.filterMap (fun i =>
    match i with
    | .dev (.takePicture ok) => some ok
    | _ => none)

/-- The `adjust_focus` calls of a trace, with their results. -/
def focusCalls (t : List TraceItem) : List (ℤ × Bool) :=
  t.filterMap (fun i =>
    match i with
    | .dev (.adjustFocus v ok) => some (v, ok)
    | _ => none)

/-- The signed steps of the successful `adjust_focus` calls of a trace
(the moves actually applied). -/
def appliedFocusMoves (t : List TraceItem) : List ℤ :=
  t.filterMap (fun i =>
    match i with
    | .dev (.adjustFocus v true) => some v
    | _ => none)

/-- The device calls of a trace, in order. -/
def devCalls (t : List TraceItem) : List DeviceCall :=
  t.filterMap (fun i =>
    match i with
    | .dev c => some c
    | _ => none)

/-- Pointwise order on the progress fields that are only ever advanced:
everything except `current_frame` (which the worker resets to 0 at the
start of every bracket). -/
def ProgLE (p q : Progress) : Prop :=
  p.current_bracket ≤ q.current_bracket ∧ p.total_brackets ≤ q.total_brackets ∧
  p.total_frames ≤ q.total_frames ∧ p.completed_frames ≤ q.completed_frames ∧
  p.failed_frames ≤ q.failed_frames

/-- The published snapshots between two states form a `ProgLE`-chain
anchored at the surrounding worker states. -/
def Mono (p : Progress) (t : List TraceItem) (q : Progress) : Prop :=
  List.Chain' ProgLE (p :: (publishedProgress t ++ [q]))

/-- Lower bound discipline of an enumerated bracket list: indices are at
least `n` and strictly ascending. -/
def idxLB : ℕ → List (ℕ × PlanBracket) → Prop
  | _, [] => True
  | n, (i, _) :: rest => n ≤ i ∧ idxLB (i + 1) rest

/-- An environment in which every device call succeeds, no stop is ever
requested, the camera always reports 0 images on card, and downloads
succeed. -/
def envAllOk : Env :=
  { apply_results := fun _ => true, picture_results := fun _ => true,
    focus_results := fun _ => true, stop_observed := fun _ => false,
    session_results := fun _ => true, count_results := fun _ => some 0,
    download_ok := true, download_files := ["IMG_0001.CR3"] }

/-- An environment in which the device rejects every settings
application and everything else succeeds. -/
def envRejectSettings : Env := { envAllOk with apply_results := fun _ => false }

/-- An environment in which a stop request is already pending at the
first top-of-frame check. -/
def envStopNow : Env := { envAllOk with stop_observed := fun _ => true }

/-- An environment in which the pre-capture image count succeeds (5
images on card) but the post-capture count raises (for example the
camera dropped off the bus before the download phase). -/
def envCountRaises : Env :=
  { envAllOk with count_results := fun k => if k = 0 then some 5 else none }

/-- Focus stacking disabled (with the source's default parameters). -/
def focusOff : FocusStackConfig :=
  { enabled := false, steps := 10, step_size := 3, speed := 2, direction := "near" }

/-- Focus stacking enabled: steps 4, step size 3, direction near,
speed 2 (the configuration of spec Scenario D). -/
def focusNear4 : FocusStackConfig :=
  { enabled := true, steps := 4, step_size := 3, speed := 2, direction := "near" }

/-- A one-frame bracket at ISO 100, f/8, 1/125. -/
def bracketA : PlanBracket :=
  { name := "A", iso := 100, aperture := 8, shutter_speed := "1/125",
    frames := 1, delay := 0 }

/-- A two-frame bracket at ISO 200, f/4, 1/500. -/
def bracketB : PlanBracket :=
  { name := "B", iso := 200, aperture := 4, shutter_speed := "1/500",
    frames := 2, delay := 0 }

/-- A standard-mode plan with two one-frame brackets and no focus
stacking. -/
def planTwoBrackets : Plan :=
  { capture_mode := "standard",
    brackets := [bracketA, { bracketB with frames := 1 }],
    focus_stack := focusOff }

/-- A standard-mode plan with a single two-frame bracket. -/
def planOneBracket : Plan :=
  { capture_mode := "standard", brackets := [bracketB], focus_stack := focusOff }

/-- A fast-mode plan with a single one-frame bracket. -/
def planFastOne : Plan :=
  { capture_mode := "fast", brackets := [bracketA], focus_stack := focusOff }

/-- A standard-mode focus-stacking plan (Scenario D configuration). -/
def planFocusStack : Plan :=
  { capture_mode := "standard", brackets := [bracketA], focus_stack := focusNear4 }

/-- The conservative fallback triple documented by the specification:
ISO 100, f/8, 1/125s. -/
def fallbackSettings : Settings :=
  { iso := 100, aperture := 8, shutter_speed := "1/125" }

end CaptureController

namespace ExposureCalculator

/-- The bracket dict of spec Scenario C: a valid ISO and aperture with
an unparseable shutter string. -/
def garbageBracket : Bracket :=
  { iso := some 100, aperture := some 8, shutter_speed := some "garbage",
    ev := none, extra := [] }

/-- A bracket dict whose shutter string "1/90" is absent from the
third-stop table and parses to 1/90 s. -/
def bracket90 : Bracket :=
  { iso := some 100, aperture := some 8, shutter_speed := some "1/90",
    ev := none, extra := [("name", "X")] }

/-- Modelled from the spec: "each field is snapped to the nearest
third-stop table entry if not already present verbatim" — the shutter
snap target the specification describes, i.e. the nearest entry of the
third-stop shutter table by absolute difference of seconds values.
(The code instead snaps through `_find_closest_shutter_speed`, which
searches the full-stop table; this definition exists to compare the two.) -/
def specNearestThirdShutter (s : String) : Option String :=
  (parseShutterSpeed s).map (fun secs =>
    (SHUTTER_SPEEDS_THIRD.argmin (fun sp => |shutterToSeconds sp - secs|)).getD s)

/-- `x` is an element of `l` at minimal absolute distance from `v`. -/
def isNearest (l : List ℚ) (v x : ℚ) : Prop :=
  x ∈ l ∧ ∀ t ∈ l, |x - v| ≤ |t - v|

/-- `sp` is a full-stop shutter entry whose seconds value is at minimal
absolute distance from `v`. -/
def isNearestShutter (v : ℚ) (sp : String) : Prop :=
  sp ∈ SHUTTER_SPEEDS ∧
  ∀ t ∈ SHUTTER_SPEEDS, |shutterToSeconds sp - v| ≤ |shutterToSeconds t - v|

/-- The position of a shutter string in the full-stop table. -/
def stopIndex (s : String) : ℕ := SHUTTER_SPEEDS.indexOf s

/-- Two shutter strings are within one quantization step of the
full-stop table: both are table entries and their positions differ by at
most one. -/
def withinOneStop (a b : String) : Prop :=
  a ∈ SHUTTER_SPEEDS ∧ b ∈ SHUTTER_SPEEDS ∧
  stopIndex a ≤ stopIndex b + 1 ∧ stopIndex b ≤ stopIndex a + 1

/-- The planned EV values of a bracket list, recovered from the stored
offsets: entry `b` was generated for the ladder value
`base_ev - b.ev_diff`. -/
noncomputable def plannedEVs (base_ev : ℝ) (l : List EvBracket) : List ℝ :=
  l.map (fun b => base_ev - b.ev_diff)

/-- The base settings triple of the C3 fixtures: ISO 100, f/8, 64s,
whose EV radicand is exactly 1 (so its EV100 is exactly 0). -/
def baseEvZero : BaseSettings :=
  { iso := 100, aperture := 8, shutter_speed := "64" }

/-- Decidable check that a shutter string parses to a positive number of
seconds. -/
def parsesPositive (s : String) : Bool :=
  match parseShutterSpeed s with
  | some q => decide (0 < q)
  | none => false

end ExposureCalculator

namespace CaptureController

/-- A left fold accumulating `+ f b` computes the initial value plus the
sum of the images. -/
theorem foldl_add_eq_sum (f : PlanBracket → ℕ) (l : List PlanBracket) :
    ∀ n : ℕ, l.foldl (fun t b => t + f b) n = n + (l.map f).sum := by
  induction l with
  | nil => intro n; simp
  | cons b rest ih => intro n; simp [ih, Nat.add_assoc]

/-- C1: for every capture plan, the `total_frames` value computed at
session creation equals Σ bracket.frames when focus stacking is
disabled, and Σ bracket.frames × (S + 1) when focus stacking is enabled
with S steps. -/
theorem C1_total_frames (p : Plan) :
    (p.focus_stack.enabled = false →
      (initialProgress p).total_frames = (p.brackets.map (fun b => b.frames)).sum) ∧
    (∀ S : ℕ, p.focus_stack.enabled = true → p.focus_stack.steps = S →
      (initialProgress p).total_frames =
        (p.brackets.map (fun b => b.frames * (S + 1))).sum) := by
  constructor
  · intro h
    simp [initialProgress, calculate_total_frames, h, foldl_add_eq_sum]
  · intro S h hS
    subst hS
    simp [initialProgress, calculate_total_frames, h, foldl_add_eq_sum]

/-- C1 witness: the frame-count law evaluated on a plan without focus
stacking (1 + 1 frames) and on a focus-stacking plan (1 frame ×
(4 steps + 1)). -/
theorem C1_total_frames_witness :
    (initialProgress planTwoBrackets).total_frames = 2 ∧
    (initialProgress planFocusStack).total_frames = 5 := by
  constructor
  · rw [(C1_total_frames planTwoBrackets).1 rfl]; decide
  · rw [(C1_total_frames planFocusStack).2 4 rfl rfl]; decide

/-- C2 counterexample: a plan whose single bracket's settings are
rejected by the device.  The worker issues exactly one
`apply_settings` call — there is no retry, and in particular no call
with the documented fallback triple ISO 100, f/8, 1/125 — appends one
error, attempts none of the bracket's frames, and the session still
completes. -/
theorem C2_counterexample :
    applyCalls (execute_capture_sequence envRejectSettings "s1" planOneBracket).2.2 =
      [({ iso := 200, aperture := 4, shutter_speed := "1/500" }, false)] ∧
    fallbackSettings ∉
      (applyCalls (execute_capture_sequence envRejectSettings "s1" planOneBracket).2.2).map
        Prod.fst ∧
    pictureCalls (execute_capture_sequence envRejectSettings "s1" planOneBracket).2.2 = [] ∧
    (execute_capture_sequence envRejectSettings "s1" planOneBracket).2.1.status =
      Status.completed ∧
    (execute_capture_sequence envRejectSettings "s1" planOneBracket).2.1.errors =
      ["Failed to apply settings for bracket 1"] := by decide

/-- C6 evaluated at the failing input: a fast-mode session whose
post-capture image count raises.  The dead `except` arm sets
`new_images = 0`, but the unconditional recomputation on the next line
reads the never-assigned `images_after`, so the worker dies with a
`NameError` that the outer handler converts to status `error`; no
summary record is persisted.  The claim (and the spec) say the failure
is recorded in `errors` while the session still reaches `completed`. -/
theorem C6_code_evaluation :
    (execute_capture_sequence envCountRaises "s6" planFastOne).2.1.status = Status.error ∧
    (execute_capture_sequence envCountRaises "s6" planFastOne).2.1.saved = none ∧
    (execute_capture_sequence envCountRaises "s6" planFastOne).2.1.errors =
      ["Error executing capture: name images_after is not defined"] := by decide

/-- C9 counterexample: on a two-bracket plan where every device call
succeeds, the published `current_frame` snapshots are
[0, 0, 1, 1, 0, 1, 1, 1]: the value drops from 1 back to 0 when the
second bracket starts, so the snapshot sequence of `current_frame` is
not monotone. -/
theorem C9_counterexample :
    (publishedProgress (execute_capture_sequence envAllOk "s9" planTwoBrackets).2.2).map
        (fun p => p.current_frame) = [0, 0, 1, 1, 0, 1, 1, 1] ∧
    ((publishedProgress (execute_capture_sequence envAllOk "s9" planTwoBrackets).2.2).map
        (fun p => p.current_frame))[2]? = some 1 ∧
    ((publishedProgress (execute_capture_sequence envAllOk "s9" planTwoBrackets).2.2).map
        (fun p => p.current_frame))[4]? = some 0 := by decide

end CaptureController

namespace ExposureCalculator

/-- `closestValue` really is a nearest table entry by absolute
difference (first minimiser). -/
theorem closestValue_isNearest (l : List ℚ) (v : ℚ) (hl : l ≠ []) :
    isNearest l v (closestValue l v) := by
  cases hx : l.argmin (fun t => |t - v|) with
  | none => exact absurd (List.argmin_eq_none.mp hx) hl
  | some x =>
    have hmem : x ∈ l.argmin (fun t => |t - v|) := by rw [hx]; rfl
    refine ⟨?_, ?_⟩
    · simpa [closestValue, hx] using List.argmin_mem hmem
    · intro t ht
      simpa [closestValue, hx] using List.le_of_mem_argmin ht hmem

/-- `_find_closest_shutter_speed` returns a full-stop table entry whose
seconds value is nearest to the requested one. -/
theorem find_closest_isNearestShutter (v : ℚ) :
    isNearestShutter v (find_closest_shutter_speed v) := by
  cases hx : SHUTTER_SPEEDS.argmin (fun sp => |shutterToSeconds sp - v|) with
  | none =>
    have : SHUTTER_SPEEDS = [] := List.argmin_eq_none.mp hx
    exact absurd this (by decide)
  | some x =>
    have hmem : x ∈ SHUTTER_SPEEDS.argmin (fun sp => |shutterToSeconds sp - v|) := by
      rw [hx]; rfl
    refine ⟨?_, ?_⟩
    · simpa [find_closest_shutter_speed, hx] using List.argmin_mem hmem
    · intro t ht
      simpa [find_closest_shutter_speed, hx] using List.le_of_mem_argmin ht hmem

/-- Every third-stop ISO value is positive. -/
theorem iso_third_pos : ∀ x ∈ ISO_VALUES_THIRD, 0 < x := by decide

/-- Every third-stop aperture value is positive. -/
theorem aperture_third_pos : ∀ x ∈ APERTURE_VALUES_THIRD, 0 < x := by decide

/-- Every third-stop shutter entry parses to a positive seconds value. -/
theorem shutter_third_parses : ∀ s ∈ SHUTTER_SPEEDS_THIRD, parsesPositive s = true := by
  decide

/-- Every full-stop shutter entry parses to a positive seconds value. -/
theorem shutter_full_parses : ∀ s ∈ SHUTTER_SPEEDS, parsesPositive s = true := by decide

/-- Unpacking `parsesPositive`. -/
theorem parsesPositive_spec (s : String) (h : parsesPositive s = true) :
    ∃ q, parseShutterSpeed s = some q ∧ 0 < q := by
  unfold parsesPositive at h
  cases hp : parseShutterSpeed s with
  | none => rw [hp] at h; exact absurd h (by simp)
  | some q =>
    rw [hp] at h
    exact ⟨q, rfl, of_decide_eq_true h⟩

/-- The EV radicand is defined (and hence `calculate_ev` succeeds) on a
positive ISO, a positive aperture and a shutter string that parses to a
positive seconds value. -/
theorem evRadicand_isSome_of_pos (iso ap : ℚ) (sh : String) (hiso : 0 < iso)
    (hap : 0 < ap) (hsh : parsesPositive sh = true) :
    (evRadicand iso ap sh).isSome := by
  obtain ⟨q, hq, hqpos⟩ := parsesPositive_spec sh hsh
  unfold evRadicand
  rw [hq]
  have h1 : q * iso ≠ 0 := ne_of_gt (mul_pos hqpos hiso)
  have h2 : 0 < ap * ap * 100 / (q * iso) := by positivity
  simp [h1, h2]

/-- `finishBracket` writes only the `ev` key and always accepts. -/
theorem finishBracket_fields (b : Bracket) (i a : ℚ) (sh : String) :
    (finishBracket b i a sh).1.iso = b.iso ∧
    (finishBracket b i a sh).1.aperture = b.aperture ∧
    (finishBracket b i a sh).1.shutter_speed = b.shutter_speed ∧
    (finishBracket b i a sh).1.extra = b.extra ∧
    (finishBracket b i a sh).2 = true := by
  unfold finishBracket
  cases evRadicand i a sh <;> simp

/-- When the EV radicand is defined, `finishBracket` stores it. -/
theorem finishBracket_ev (b : Bracket) (i a : ℚ) (sh : String)
    (h : (evRadicand i a sh).isSome) : (finishBracket b i a sh).1.ev.isSome := by
  unfold finishBracket
  cases hq : evRadicand i a sh with
  | none => rw [hq] at h; exact absurd h (by simp)
  | some q => simp

end ExposureCalculator

namespace ExposureCalculator

/-- C5 counterexample: the entry {iso 100, f/8, shutter "1/90"} has all
required fields and a parseable shutter string absent from the
third-stop table.  The code snaps the shutter to "1/125" — an entry of
the FULL-stop table — although the nearest third-stop entry is "1/100",
so the claim that every field is snapped to the nearest third-stop
entry is false. -/
theorem C5_counterexample :
    generate_brackets_direct [bracket90] =
      [{ iso := some 100, aperture := some 8, shutter_speed := some "1/125",
         ev := some 8000, extra := [("name", "X")] }] ∧
    specNearestThirdShutter "1/90" = some "1/100" ∧
    ("1/125" : String) ≠ "1/100" := by decide

/-- A bracket with a missing required field is rejected untouched. -/
theorem validateBracket_missing (b : Bracket)
    (h : b.iso = none ∨ b.aperture = none ∨ b.shutter_speed = none) :
    validateBracket b = (b, false) := by
  unfold validateBracket
  cases hI : b.iso with
  | none => rfl
  | some i =>
    cases hA : b.aperture with
    | none => rfl
    | some a =>
      cases hS : b.shutter_speed with
      | none => rfl
      | some s => rw [hI, hA, hS] at h; simp at h

/-- The ISO snap of the loop body. -/
def snapIso (iso0 : ℚ) : ℚ :=
  if iso0 ∈ ISO_VALUES_THIRD then iso0 else closestValue ISO_VALUES_THIRD iso0

/-- The aperture snap of the loop body. -/
def snapAperture (ap0 : ℚ) : ℚ :=
  if ap0 ∈ APERTURE_VALUES_THIRD then ap0 else closestValue APERTURE_VALUES_THIRD ap0

/-- `validateBracket` on an entry with all fields present and a shutter
string found verbatim in the third-stop table. -/
theorem validateBracket_shInTable (b : Bracket) (iso0 ap0 : ℚ) (sh0 : String)
    (hiso : b.iso = some iso0) (hap : b.aperture = some ap0)
    (hsh : b.shutter_speed = some sh0) (hmem : sh0 ∈ SHUTTER_SPEEDS_THIRD) :
    validateBracket b =
      finishBracket { b with iso := some (snapIso iso0), aperture := some (snapAperture ap0) }
        (snapIso iso0) (snapAperture ap0) sh0 := by
  unfold validateBracket snapIso snapAperture
  rw [hiso, hap, hsh]
  simp only [if_pos hmem]

/-- `validateBracket` on an entry whose shutter string is absent from
the third-stop table but parses: the shutter is snapped through the
full-stop table. -/
theorem validateBracket_shParses (b : Bracket) (iso0 ap0 : ℚ) (sh0 : String) (secs : ℚ)
    (hiso : b.iso = some iso0) (hap : b.aperture = some ap0)
    (hsh : b.shutter_speed = some sh0) (hmem : sh0 ∉ SHUTTER_SPEEDS_THIRD)
    (hparse : parseShutterSpeed sh0 = some secs) :
    validateBracket b =
      finishBracket
        { b with iso := some (snapIso iso0), aperture := some (snapAperture ap0),
                 shutter_speed := some (find_closest_shutter_speed secs) }
        (snapIso iso0) (snapAperture ap0) (find_closest_shutter_speed secs) := by
  unfold validateBracket snapIso snapAperture
  rw [hiso, hap, hsh]
  simp only [if_neg hmem, hparse]

/-- `validateBracket` on an entry whose shutter string is absent from
the third-stop table and does not parse: the entry is dropped, with the
ISO and aperture writes already performed. -/
theorem validateBracket_shBad (b : Bracket) (iso0 ap0 : ℚ) (sh0 : String)
    (hiso : b.iso = some iso0) (hap : b.aperture = some ap0)
    (hsh : b.shutter_speed = some sh0) (hmem : sh0 ∉ SHUTTER_SPEEDS_THIRD)
    (hparse : parseShutterSpeed sh0 = none) :
    validateBracket b =
      ({ b with iso := some (snapIso iso0), aperture := some (snapAperture ap0) }, false) := by
  unfold validateBracket snapIso snapAperture
  rw [hiso, hap, hsh]
  simp only [if_neg hmem, hparse]

/-- The snapped ISO is a nearest third-stop entry, kept verbatim when
already in the table. -/
theorem snapIso_isNearest (iso0 : ℚ) :
    isNearest ISO_VALUES_THIRD iso0 (snapIso iso0) ∧
    (iso0 ∈ ISO_VALUES_THIRD → snapIso iso0 = iso0) := by
  unfold snapIso
  by_cases hi : iso0 ∈ ISO_VALUES_THIRD
  · rw [if_pos hi]
    exact ⟨⟨hi, fun t ht => by simp [abs_nonneg]⟩, fun _ => rfl⟩
  · rw [if_neg hi]
    exact ⟨closestValue_isNearest _ _ (by decide), fun h => absurd h hi⟩

/-- The snapped aperture is a nearest third-stop entry, kept verbatim
when already in the table. -/
theorem snapAperture_isNearest (ap0 : ℚ) :
    isNearest APERTURE_VALUES_THIRD ap0 (snapAperture ap0) ∧
    (ap0 ∈ APERTURE_VALUES_THIRD → snapAperture ap0 = ap0) := by
  unfold snapAperture
  by_cases ha : ap0 ∈ APERTURE_VALUES_THIRD
  · rw [if_pos ha]
    exact ⟨⟨ha, fun t ht => by simp [abs_nonneg]⟩, fun _ => rfl⟩
  · rw [if_neg ha]
    exact ⟨closestValue_isNearest _ _ (by decide), fun h => absurd h ha⟩

/-- A dropped head entry does not contribute to the returned list. -/
theorem generate_brackets_direct_cons_false (b : Bracket) (l : List Bracket)
    (hv : (validateBracket b).2 = false) :
    generate_brackets_direct (b :: l) = generate_brackets_direct l := by
  simp [generate_brackets_direct, List.filter_cons, hv]

/-- C5 amended: `generate_brackets_direct` skips entries missing a
required field; silently drops (the Lean model is a total function, so
no exception can escape) entries whose shutter string is neither a
third-stop table entry nor parseable; snaps ISO and aperture of
accepted entries to the nearest THIRD-stop entry by absolute
difference, keeping values already in the table verbatim; keeps a
shutter string verbatim when it is a third-stop entry and otherwise
snaps it to the nearest FULL-stop table entry by absolute difference of
seconds values; and in particular drops the Scenario C entry with
shutter "garbage", returning the empty list. -/
theorem C5_amended :
    (∀ (b : Bracket) (l : List Bracket),
        (b.iso = none ∨ b.aperture = none ∨ b.shutter_speed = none) →
        generate_brackets_direct (b :: l) = generate_brackets_direct l) ∧
    (∀ (b : Bracket) (l : List Bracket) (sh0 : String),
        b.shutter_speed = some sh0 → sh0 ∉ SHUTTER_SPEEDS_THIRD →
        parseShutterSpeed sh0 = none →
        generate_brackets_direct (b :: l) = generate_brackets_direct l) ∧
    (∀ (b : Bracket) (iso0 ap0 : ℚ) (sh0 : String),
        b.iso = some iso0 → b.aperture = some ap0 → b.shutter_speed = some sh0 →
        (validateBracket b).2 = true →
        (∃ i, (validateBracket b).1.iso = some i ∧ isNearest ISO_VALUES_THIRD iso0 i ∧
              (iso0 ∈ ISO_VALUES_THIRD → i = iso0)) ∧
        (∃ a, (validateBracket b).1.aperture = some a ∧
              isNearest APERTURE_VALUES_THIRD ap0 a ∧
              (ap0 ∈ APERTURE_VALUES_THIRD → a = ap0)) ∧
        (sh0 ∈ SHUTTER_SPEEDS_THIRD → (validateBracket b).1.shutter_speed = some sh0) ∧
        (∀ secs, sh0 ∉ SHUTTER_SPEEDS_THIRD → parseShutterSpeed sh0 = some secs →
            ∃ sp, (validateBracket b).1.shutter_speed = some sp ∧
                  isNearestShutter secs sp)) ∧
    generate_brackets_direct [garbageBracket] = [] := by
  refine ⟨?_, ?_, ?_, by decide⟩
  · intro b l h
    exact generate_brackets_direct_cons_false b l (by rw [validateBracket_missing b h])
  · intro b l sh0 hsh hmem hparse
    refine generate_brackets_direct_cons_false b l ?_
    cases hI : b.iso with
    | none => rw [validateBracket_missing b (Or.inl hI)]
    | some iso0 =>
      cases hA : b.aperture with
      | none => rw [validateBracket_missing b (Or.inr (Or.inl hA))]
      | some ap0 => rw [validateBracket_shBad b iso0 ap0 sh0 hI hA hsh hmem hparse]
  · intro b iso0 ap0 sh0 hiso hap hsh hacc
    by_cases hmem : sh0 ∈ SHUTTER_SPEEDS_THIRD
    · rw [validateBracket_shInTable b iso0 ap0 sh0 hiso hap hsh hmem]
      have hf := finishBracket_fields
        { b with iso := some (snapIso iso0), aperture := some (snapAperture ap0) }
        (snapIso iso0) (snapAperture ap0) sh0
      refine ⟨⟨snapIso iso0, by rw [hf.1], (snapIso_isNearest iso0).1,
          fun h => (snapIso_isNearest iso0).2 h⟩,
        ⟨snapAperture ap0, by rw [hf.2.1], (snapAperture_isNearest ap0).1,
          fun h => (snapAperture_isNearest ap0).2 h⟩,
        fun _ => by rw [hf.2.2.1, hsh], ?_⟩
      intro secs hnmem _
      exact absurd hmem hnmem
    · cases hparse : parseShutterSpeed sh0 with
      | none =>
        rw [validateBracket_shBad b iso0 ap0 sh0 hiso hap hsh hmem hparse] at hacc
        simp at hacc
      | some secs =>
        rw [validateBracket_shParses b iso0 ap0 sh0 secs hiso hap hsh hmem hparse]
        have hf := finishBracket_fields
          { b with iso := some (snapIso iso0), aperture := some (snapAperture ap0),
                   shutter_speed := some (find_closest_shutter_speed secs) }
          (snapIso iso0) (snapAperture ap0) (find_closest_shutter_speed secs)
        refine ⟨⟨snapIso iso0, by rw [hf.1], (snapIso_isNearest iso0).1,
            fun h => (snapIso_isNearest iso0).2 h⟩,
          ⟨snapAperture ap0, by rw [hf.2.1], (snapAperture_isNearest ap0).1,
            fun h => (snapAperture_isNearest ap0).2 h⟩,
          fun h => absurd h hmem, ?_⟩
        intro secs2 _ hparse2
        cases hparse2
        exact ⟨find_closest_shutter_speed secs, by rw [hf.2.2.1],
          find_closest_isNearestShutter secs⟩

/-- C5 witness: the amended claim instantiated at the Scenario C entry
(shutter "garbage": the list is dropped to empty) and at the entry with
shutter "1/90" (snapped to a nearest full-stop entry). -/
theorem C5_amended_witness :
    generate_brackets_direct [garbageBracket] = [] ∧
    (∃ sp, (validateBracket bracket90).1.shutter_speed = some sp ∧
           isNearestShutter (1 / 90) sp) := by
  constructor
  · have h := C5_amended.2.1 garbageBracket [] "garbage" rfl (by decide) (by decide)
    simpa [generate_brackets_direct] using h
  · exact (C5_amended.2.2.1 bracket90 100 8 "1/90" rfl rfl rfl (by decide)).2.2.2
      (1 / 90) (by decide) (by decide)

end ExposureCalculator

namespace ExposureCalculator

/-- An accepted entry leaves the loop with every managed key written:
snapped ISO and aperture (members of the third-stop tables, hence
positive), a valid shutter string, and — because the EV radicand of such
a triple is always defined — a computed `ev` key. -/
theorem validateBracket_accepted (b : Bracket) (h : (validateBracket b).2 = true) :
    ((validateBracket b).1).ev.isSome ∧ ((validateBracket b).1).iso.isSome ∧
    ((validateBracket b).1).aperture.isSome ∧
    ((validateBracket b).1).shutter_speed.isSome := by
  cases hI : b.iso with
  | none => rw [validateBracket_missing b (Or.inl hI)] at h; simp at h
  | some iso0 =>
  cases hA : b.aperture with
  | none => rw [validateBracket_missing b (Or.inr (Or.inl hA))] at h; simp at h
  | some ap0 =>
  cases hS : b.shutter_speed with
  | none => rw [validateBracket_missing b (Or.inr (Or.inr hS))] at h; simp at h
  | some sh0 =>
  have hisopos : 0 < snapIso iso0 := iso_third_pos _ (snapIso_isNearest iso0).1.1
  have happos : 0 < snapAperture ap0 :=
    aperture_third_pos _ (snapAperture_isNearest ap0).1.1
  by_cases hmem : sh0 ∈ SHUTTER_SPEEDS_THIRD
  · rw [validateBracket_shInTable b iso0 ap0 sh0 hI hA hS hmem]
    have hev := evRadicand_isSome_of_pos _ _ sh0 hisopos happos
      (shutter_third_parses sh0 hmem)
    have hf := finishBracket_fields
      { b with iso := some (snapIso iso0), aperture := some (snapAperture ap0) }
      (snapIso iso0) (snapAperture ap0) sh0
    refine ⟨finishBracket_ev _ _ _ _ hev, ?_, ?_, ?_⟩
    · rw [hf.1]; simp
    · rw [hf.2.1]; simp
    · rw [hf.2.2.1, hS]; simp
  · cases hparse : parseShutterSpeed sh0 with
    | none =>
      rw [validateBracket_shBad b iso0 ap0 sh0 hI hA hS hmem hparse] at h
      simp at h
    | some secs =>
      rw [validateBracket_shParses b iso0 ap0 sh0 secs hI hA hS hmem hparse]
      have hev := evRadicand_isSome_of_pos _ _ (find_closest_shutter_speed secs)
        hisopos happos
        (shutter_full_parses _ (find_closest_isNearestShutter secs).1)
      have hf := finishBracket_fields
        { b with iso := some (snapIso iso0), aperture := some (snapAperture ap0),
                 shutter_speed := some (find_closest_shutter_speed secs) }
        (snapIso iso0) (snapAperture ap0) (find_closest_shutter_speed secs)
      refine ⟨finishBracket_ev _ _ _ _ hev, ?_, ?_, ?_⟩
      · rw [hf.1]; simp
      · rw [hf.2.1]; simp
      · rw [hf.2.2.1]; simp

/-- C10: `generate_brackets_direct` works in place on the caller's
dicts: the returned list is a sublist of the caller's own list in its
post-call state (the same dict objects, not copies); the post-state of
each dict is exactly the loop body's in-place update; no key other than
`iso`, `aperture`, `shutter_speed` and `ev` is ever written (the
carried `extra` keys are untouched); and every dict the function
returns has the snapped values and a computed `ev` key written into
it. -/
theorem C10_in_place (l : List Bracket) :
    (generate_brackets_direct l).Sublist (generate_brackets_direct_post l) ∧
    generate_brackets_direct_post l = l.map (fun b => (validateBracket b).1) ∧
    (∀ b : Bracket, ((validateBracket b).1).extra = b.extra) ∧
    (∀ b ∈ generate_brackets_direct l,
        b.ev.isSome ∧ b.iso.isSome ∧ b.aperture.isSome ∧ b.shutter_speed.isSome) := by
  refine ⟨?_, ?_, ?_, ?_⟩
  · exact List.Sublist.map _ (List.filter_sublist _)
  · simp [generate_brackets_direct_post, List.map_map]
  · intro b
    cases hI : b.iso with
    | none => rw [validateBracket_missing b (Or.inl hI)]
    | some iso0 =>
    cases hA : b.aperture with
    | none => rw [validateBracket_missing b (Or.inr (Or.inl hA))]
    | some ap0 =>
    cases hS : b.shutter_speed with
    | none => rw [validateBracket_missing b (Or.inr (Or.inr hS))]
    | some sh0 =>
    by_cases hmem : sh0 ∈ SHUTTER_SPEEDS_THIRD
    · rw [validateBracket_shInTable b iso0 ap0 sh0 hI hA hS hmem]
      exact (finishBracket_fields _ _ _ _).2.2.2.1
    · cases hparse : parseShutterSpeed sh0 with
      | none => rw [validateBracket_shBad b iso0 ap0 sh0 hI hA hS hmem hparse]
      | some secs =>
        rw [validateBracket_shParses b iso0 ap0 sh0 secs hI hA hS hmem hparse]
        exact (finishBracket_fields _ _ _ _).2.2.2.1
  · intro b hb
    rcases List.mem_map.mp hb with ⟨r, hrmem, hrb⟩
    rcases List.mem_filter.mp hrmem with ⟨hrmem2, hracc⟩
    rcases List.mem_map.mp hrmem2 with ⟨a, _, hva⟩
    subst hrb
    subst hva
    exact validateBracket_accepted a hracc

/-- C10 witness: on the one-entry list with shutter "1/90", the
returned list is a sublist of the caller's mutated list, and the
returned dict (the caller's own, snapped to "1/125") carries a computed
`ev` key. -/
theorem C10_in_place_witness :
    (generate_brackets_direct [bracket90]).Sublist
      (generate_brackets_direct_post [bracket90]) ∧
    ({ iso := some 100, aperture := some 8, shutter_speed := some "1/125",
       ev := some 8000, extra := [("name", "X")] } : Bracket).ev.isSome := by
  constructor
  · exact (C10_in_place [bracket90]).1
  · exact ((C10_in_place [bracket90]).2.2.2 _ (by decide)).1

end ExposureCalculator

namespace CaptureController

/-- C2 amended: whenever applying a bracket's settings to the device is
rejected, the worker performs NO retry (the bracket's trace prefix
contains exactly the one rejected `apply_settings` call and no
`take_picture` call), appends exactly one error, and continues with the
remaining brackets with the session status untouched — a single
bracket's settings rejection never terminates the session.  (The
ISO 100 / f8 / 1-125 fallback of the claim exists only in the separate
settings-test endpoint, not in this worker.) -/
theorem C2_amended (env : Env) (fs : FocusStackConfig) (bidx : ℕ) (b : PlanBracket)
    (rest : List (ℕ × PlanBracket)) (c : Counters) (s : CaptureState)
    (hrej : env.apply_results c.applies = false) :
    let s1 : CaptureState := { s with progress :=
      { s.progress with current_bracket := bidx + 1, current_frame := 0 } }
    let s2 : CaptureState := { s1 with errors := s1.errors ++
      ["Failed to apply settings for bracket " ++ toString (bidx + 1)] }
    let pre : List TraceItem :=
      [TraceItem.publish s.status s1.progress,
       TraceItem.dev (DeviceCall.applySettings
         { iso := b.iso, aperture := b.aperture, shutter_speed := b.shutter_speed } false),
       TraceItem.publish s.status s1.progress]
    let r := bracketsLoop env fs rest { c with applies := c.applies + 1 } s2
    bracketsLoop env fs ((bidx, b) :: rest) c s = (r.1, r.2.1, pre ++ r.2.2.1, r.2.2.2) ∧
    pictureCalls pre = [] ∧
    applyCalls pre =
      [({ iso := b.iso, aperture := b.aperture, shutter_speed := b.shutter_speed }, false)] ∧
    s2.errors = s.errors ++
      ["Failed to apply settings for bracket " ++ toString (bidx + 1)] ∧
    s2.status = s.status := by
  refine ⟨?_, rfl, rfl, rfl, rfl⟩
  simp only [bracketsLoop, hrej]
  rfl

/-- C2 amended witness: the rejected-settings step evaluated on the
concrete one-bracket plan: no picture is taken, the loop returns with
one error recorded. -/
theorem C2_amended_witness :
    envRejectSettings.apply_results Counters.init.applies = false ∧
    pictureCalls
      (bracketsLoop envRejectSettings focusOff [(0, bracketB)] Counters.init
        (workerInit "w" planOneBracket)).2.2.1 = [] ∧
    (bracketsLoop envRejectSettings focusOff [(0, bracketB)] Counters.init
      (workerInit "w" planOneBracket)).2.1.errors =
      ["Failed to apply settings for bracket 1"] := by
  have h := C2_amended envRejectSettings focusOff 0 bracketB [] Counters.init
    (workerInit "w" planOneBracket) (by decide)
  refine ⟨by decide, ?_, ?_⟩
  · rw [h.1]; decide
  · rw [h.1]; decide

/-- C7: `stop_capture` returns true and flips the status to `stopping`
exactly when the session exists with status `running`, and otherwise
returns false leaving the registry unchanged; a worker that observes the
pending stop at the top of a frame iteration transitions to terminal
`stopped` at once, publishing its progress unchanged and performing no
further work; and the worker function returns that stopped state as its
final state (no post-processing, no further progress changes). -/
theorem C7_stop_semantics :
    (∀ (captures : List (String × Status)) (id : String),
      ((stop_capture captures id).1 = true ↔
        captures.lookup id = some Status.running) ∧
      ((stop_capture captures id).1 = true →
        (stop_capture captures id).2 =
          captures.map (fun kv => if kv.1 = id then (kv.1, Status.stopping) else kv)) ∧
      ((stop_capture captures id).1 = false → (stop_capture captures id).2 = captures)) ∧
    (∀ (env : Env) (fs : FocusStackConfig) (fidx : ℕ) (rest : List ℕ)
        (c : Counters) (s : CaptureState),
      env.stop_observed c.checks = true →
      framesLoop env fs (fidx :: rest) c s =
        ({ c with checks := c.checks + 1 }, { s with status := Status.stopped },
         [TraceItem.publish Status.stopped s.progress], true)) ∧
    (∀ (env : Env) (id : String) (plan : Plan) (c2 : Counters) (s2 : CaptureState)
        (t2 : List TraceItem),
      env.session_results 0 = true →
      bracketsLoop env plan.focus_stack plan.brackets.enum
          (watermark env (plan.capture_mode = "fast")
            { Counters.init with sessions := 1 } (workerInit id plan)).1
          (watermark env (plan.capture_mode = "fast")
            { Counters.init with sessions := 1 } (workerInit id plan)).2 =
        (c2, s2, t2, true) →
      execute_capture_sequence env id plan =
        (c2, s2, TraceItem.publish Status.running (initialProgress plan) :: t2)) := by
  refine ⟨?_, ?_, ?_⟩
  · intro captures id
    unfold stop_capture
    cases hl : captures.lookup id with
    | none => simp
    | some st =>
      by_cases hst : st = Status.running
      · subst hst; simp
      · simp [hst]
  · intro env fs fidx rest c s h
    simp only [framesLoop, h]
    rfl
  · intro env id plan c2 s2 t2 hsess hloop
    unfold execute_capture_sequence
    simp only [Counters.init] at hsess hloop ⊢
    rw [show (env.session_results 0) = true from hsess]
    simp only [if_true]
    rw [hloop]
    rfl

/-- C7 witness: `stop_capture` on a concrete registry (flips a running
session, refuses a completed one), and a worker observing the stop at
the first frame check of the concrete one-bracket plan. -/
theorem C7_stop_semantics_witness :
    (stop_capture [("a", Status.running), ("b", Status.completed)] "a").1 = true ∧
    (stop_capture [("a", Status.running), ("b", Status.completed)] "a").2 =
      [("a", Status.stopping), ("b", Status.completed)] ∧
    (stop_capture [("a", Status.running), ("b", Status.completed)] "b").1 ≠ true ∧
    framesLoop envStopNow focusOff [0] Counters.init (workerInit "w" planOneBracket) =
      ({ Counters.init with checks := 1 },
       { workerInit "w" planOneBracket with status := Status.stopped },
       [TraceItem.publish Status.stopped (initialProgress planOneBracket)], true) := by
  refine ⟨?_, ?_, ?_, ?_⟩
  · exact (C7_stop_semantics.1 _ "a").1.mpr (by decide)
  · rw [(C7_stop_semantics.1 _ "a").2.1 ((C7_stop_semantics.1 _ "a").1.mpr (by decide))]
    decide
  · intro hcontra
    have := (C7_stop_semantics.1 [("a", Status.running), ("b", Status.completed)] "b").1.mp
      hcontra
    exact absurd this (by decide)
  · have h := C7_stop_semantics.2.1 envStopNow focusOff 0 [] Counters.init
      (workerInit "w" planOneBracket) (by decide)
    rw [h]
    rfl

end CaptureController

namespace CaptureController

/-- `focusCalls` distributes over concatenation. -/
theorem focusCalls_append (a b : List TraceItem) :
    focusCalls (a ++ b) = focusCalls a ++ focusCalls b := by
  simp [focusCalls, List.filterMap_append]

/-- `appliedFocusMoves` distributes over concatenation. -/
theorem appliedFocusMoves_append (a b : List TraceItem) :
    appliedFocusMoves (a ++ b) = appliedFocusMoves a ++ appliedFocusMoves b := by
  simp [appliedFocusMoves, List.filterMap_append]

/-- One `shoot` emits no focus events and exactly one picture event. -/
theorem shoot_trace (env : Env) (c : Counters) (s : CaptureState) (m : String) :
    focusCalls (shoot env c s m).2.2 = [] ∧
    appliedFocusMoves (shoot env c s m).2.2 = [] ∧
    pictureCalls (shoot env c s m).2.2 = [env.picture_results c.pictures] := by
  cases hok : env.picture_results c.pictures <;>
    simp [shoot, hok, focusCalls, appliedFocusMoves, pictureCalls]

/-- `appliedFocusMoves` and `focusCalls` on singleton move events. -/
theorem appliedFocusMoves_failMove (v : ℤ) :
    appliedFocusMoves [TraceItem.dev (DeviceCall.adjustFocus v false)] = [] := rfl

/-- A successful move event contributes its step. -/
theorem appliedFocusMoves_okMove (v : ℤ) :
    appliedFocusMoves [TraceItem.dev (DeviceCall.adjustFocus v true)] = [v] := rfl

/-- `focusCalls` on a singleton failed move. -/
theorem focusCalls_failMove (v : ℤ) :
    focusCalls [TraceItem.dev (DeviceCall.adjustFocus v false)] = [(v, false)] := rfl

/-- `focusCalls` on a singleton successful move. -/
theorem focusCalls_okMove (v : ℤ) :
    focusCalls [TraceItem.dev (DeviceCall.adjustFocus v true)] = [(v, true)] := rfl

/-- The running `total_movement` of the focus-stack loop is the initial
value plus the sum of the signed moves actually applied (i.e. whose
device call succeeded) during the loop. -/
theorem focusLoop_total (env : Env) (fs : FocusStackConfig) :
    ∀ (l : List ℕ) (c : Counters) (s : CaptureState) (total : ℤ),
      (focusLoop env fs l c s total).2.2.1 =
        total + (appliedFocusMoves (focusLoop env fs l c s total).2.2.2).sum := by
  intro l
  induction l with
  | nil =>
    intro c s total
    show total = total + (appliedFocusMoves []).sum
    simp [appliedFocusMoves]
  | cons idx rest ih =>
    intro c s total
    simp only [focusLoop]
    by_cases hidx : idx < fs.steps - 1
    · rw [if_pos hidx]
      by_cases hok : env.focus_results
          (shoot env c s "Failed to take picture (focus stack)").1.focuses = true
      · rw [if_pos hok]
        dsimp only
        rw [ih, appliedFocusMoves_append, appliedFocusMoves_append,
          (shoot_trace env c s "Failed to take picture (focus stack)").2.1,
          appliedFocusMoves_okMove]
        simp [add_assoc]
      · rw [if_neg hok]
        dsimp only
        rw [appliedFocusMoves_append,
          (shoot_trace env c s "Failed to take picture (focus stack)").2.1,
          appliedFocusMoves_failMove]
        simp
    · rw [if_neg hidx]
      dsimp only
      rw [ih, appliedFocusMoves_append,
        (shoot_trace env c s "Failed to take picture (focus stack)").2.1]
      simp

/-- A failed focus move ends the stack loop at once: either every focus
call of the loop trace succeeded, or the trace's focus calls end with
the single failed one and nothing follows it. -/
theorem focusLoop_fail_shape (env : Env) (fs : FocusStackConfig) :
    ∀ (l : List ℕ) (c : Counters) (s : CaptureState) (total : ℤ),
      (∀ p ∈ focusCalls (focusLoop env fs l c s total).2.2.2, p.2 = true) ∨
      (∃ l2 v, focusCalls (focusLoop env fs l c s total).2.2.2 = l2 ++ [(v, false)]) := by
  intro l
  induction l with
  | nil =>
    intro c s total
    left
    intro p hp
    simp [focusLoop, focusCalls] at hp
  | cons idx rest ih =>
    intro c s total
    simp only [focusLoop]
    by_cases hidx : idx < fs.steps - 1
    · rw [if_pos hidx]
      by_cases hok : env.focus_results
          (shoot env c s "Failed to take picture (focus stack)").1.focuses = true
      · rw [if_pos hok]
        dsimp only
        rcases ih { (shoot env c s "Failed to take picture (focus stack)").1 with
              focuses := (shoot env c s "Failed to take picture (focus stack)").1.focuses + 1 }
            (shoot env c s "Failed to take picture (focus stack)").2.1
            (total + stepValue fs) with hall | ⟨l2, v, hsplit⟩
        · left
          intro p hp
          rw [focusCalls_append, focusCalls_append,
            (shoot_trace env c s "Failed to take picture (focus stack)").1,
            focusCalls_okMove] at hp
          simp at hp
          rcases hp with hp | hp
          · rw [hp]
          · exact hall p hp
        · right
          refine ⟨(stepValue fs, true) :: l2, v, ?_⟩
          rw [focusCalls_append, focusCalls_append,
            (shoot_trace env c s "Failed to take picture (focus stack)").1,
            focusCalls_okMove, hsplit]
          simp
      · rw [if_neg hok]
        dsimp only
        right
        refine ⟨[], stepValue fs, ?_⟩
        rw [focusCalls_append,
          (shoot_trace env c s "Failed to take picture (focus stack)").1,
          focusCalls_failMove]
    · rw [if_neg hidx]
      dsimp only
      rcases ih (shoot env c s "Failed to take picture (focus stack)").1
          (shoot env c s "Failed to take picture (focus stack)").2.1 total with
        hall | ⟨l2, v, hsplit⟩
      · left
        intro p hp
        rw [focusCalls_append,
          (shoot_trace env c s "Failed to take picture (focus stack)").1] at hp
        simp at hp
        exact hall p hp
      · right
        refine ⟨l2, v, ?_⟩
        rw [focusCalls_append,
          (shoot_trace env c s "Failed to take picture (focus stack)").1, hsplit]
        simp

/-- C4: for every focus-stack execution of one frame: the accumulated
`total_movement` equals the sum of the signed focus moves actually
applied during the stack (a failed move contributes nothing, ends the
stack loop at once and abandons the remaining planned steps — the
loop's focus calls either all succeed or end at the single failed one);
the frame trace is the stack followed by a single compensating move of
`-total_movement` (present exactly when the total is nonzero), then one
additional reset-position exposure, then the defensive centering call. -/
theorem C4_focus_compensation (env : Env) (fs : FocusStackConfig) (c : Counters)
    (s : CaptureState) (c1 : Counters) (s1 : CaptureState) (total : ℤ)
    (t1 : List TraceItem)
    (h : focusLoop env fs (List.range fs.steps) c s 0 = (c1, s1, total, t1)) :
    (appliedFocusMoves t1).sum = total ∧
    ((∀ p ∈ focusCalls t1, p.2 = true) ∨
      (∃ l' v, focusCalls t1 = l' ++ [(v, false)])) ∧
    (focusStackFrame env fs c s).2.2 =
      t1 ++
      (if total ≠ 0 then
        [TraceItem.dev (DeviceCall.adjustFocus (-total) (env.focus_results c1.focuses))]
       else []) ++
      (shoot env (if total ≠ 0 then { c1 with focuses := c1.focuses + 1 } else c1) s1
        "Failed to take picture (reset focus position)").2.2 ++
      [TraceItem.dev (DeviceCall.adjustFocus 0 (env.focus_results
        ((shoot env (if total ≠ 0 then { c1 with focuses := c1.focuses + 1 } else c1) s1
          "Failed to take picture (reset focus position)").1.focuses)))] ∧
    pictureCalls
      (shoot env (if total ≠ 0 then { c1 with focuses := c1.focuses + 1 } else c1) s1
        "Failed to take picture (reset focus position)").2.2 =
      [env.picture_results c1.pictures] := by
  refine ⟨?_, ?_, ?_, ?_⟩
  · have := focusLoop_total env fs (List.range fs.steps) c s 0
    rw [h] at this
    simp at this
    exact this.symm
  · have := focusLoop_fail_shape env fs (List.range fs.steps) c s 0
    rw [h] at this
    exact this
  · unfold focusStackFrame
    rw [h]
  · by_cases h0 : total ≠ 0 <;>
      simp [h0, (shoot_trace env _ s1 "Failed to take picture (reset focus position)").2.2]

/-- C4 witness: the focus-stack frame of Scenario D (steps 4, step size
3, direction near, speed 2) on an all-success device: the applied stack
moves are +2, +2, +2, the compensating move is −6, one reset exposure
follows, then the centering call. -/
theorem C4_focus_compensation_witness :
    focusCalls (focusStackFrame envAllOk focusNear4 Counters.init
      (workerInit "w" planFocusStack)).2.2 =
      [(2, true), (2, true), (2, true), (-6, true), (0, true)] ∧
    pictureCalls (focusStackFrame envAllOk focusNear4 Counters.init
      (workerInit "w" planFocusStack)).2.2 = [true, true, true, true, true] := by
  have h := C4_focus_compensation envAllOk focusNear4 Counters.init
    (workerInit "w" planFocusStack)
    (focusLoop envAllOk focusNear4 (List.range focusNear4.steps) Counters.init
      (workerInit "w" planFocusStack) 0).1
    (focusLoop envAllOk focusNear4 (List.range focusNear4.steps) Counters.init
      (workerInit "w" planFocusStack) 0).2.1
    (focusLoop envAllOk focusNear4 (List.range focusNear4.steps) Counters.init
      (workerInit "w" planFocusStack) 0).2.2.1
    (focusLoop envAllOk focusNear4 (List.range focusNear4.steps) Counters.init
      (workerInit "w" planFocusStack) 0).2.2.2
    rfl
  constructor
  · rw [h.2.2.1]; decide
  · rw [h.2.2.1]; decide

end CaptureController

namespace CaptureController

/-- `ProgLE` is reflexive. -/
theorem progLE_refl (p : Progress) : ProgLE p p :=
  ⟨le_refl _, le_refl _, le_refl _, le_refl _, le_refl _⟩

/-- `ProgLE` is transitive. -/
theorem progLE_trans {p q r : Progress} (h1 : ProgLE p q) (h2 : ProgLE q r) :
    ProgLE p r :=
  ⟨le_trans h1.1 h2.1, le_trans h1.2.1 h2.2.1, le_trans h1.2.2.1 h2.2.2.1,
   le_trans h1.2.2.2.1 h2.2.2.2.1, le_trans h1.2.2.2.2 h2.2.2.2.2⟩

instance : IsTrans Progress ProgLE := ⟨fun _ _ _ => progLE_trans⟩

/-- `publishedProgress` distributes over concatenation. -/
theorem publishedProgress_append (a b : List TraceItem) :
    publishedProgress (a ++ b) = publishedProgress a ++ publishedProgress b := by
  simp [publishedProgress, List.filterMap_append]

/-- Gluing two `ProgLE`-chains that share an anchor. -/
theorem chain_glue {α : Type} {R : α → α → Prop} [IsTrans α R] :
    ∀ (s1 : List α) (p q : α) (l2 : List α),
      List.Chain' R (p :: (s1 ++ [q])) → List.Chain' R (q :: l2) →
      List.Chain' R (p :: (s1 ++ l2)) := by
  intro s1
  induction s1 with
  | nil =>
    intro p q l2 h1 h2
    simp only [List.nil_append] at h1 ⊢
    cases l2 with
    | nil => exact List.chain'_singleton p
    | cons x l2 =>
      rw [List.chain'_cons] at h1 h2 ⊢
      exact ⟨IsTrans.trans _ _ _ h1.1 h2.1, h2.2⟩
  | cons a s1 ih =>
    intro p q l2 h1 h2
    rw [List.cons_append, List.chain'_cons] at h1
    rw [List.cons_append, List.chain'_cons]
    exact ⟨h1.1, ih a q l2 h1.2 h2⟩

/-- `Mono` composes along concatenated traces. -/
theorem mono_append {p q r : Progress} {t1 t2 : List TraceItem}
    (h1 : Mono p t1 q) (h2 : Mono q t2 r) : Mono p (t1 ++ t2) r := by
  unfold Mono at h1 h2 ⊢
  rw [publishedProgress_append, List.append_assoc]
  exact chain_glue (publishedProgress t1) p q _ h1 h2

/-- A trace without publications is `Mono` between `ProgLE`-states. -/
theorem mono_of_no_publish {p q : Progress} {t : List TraceItem}
    (ht : publishedProgress t = []) (h : ProgLE p q) : Mono p t q := by
  unfold Mono
  rw [ht]
  simpa [List.chain'_cons] using h

/-- A single publication of the target progress. -/
theorem mono_publish (st : Status) {p q : Progress} (h : ProgLE p q) :
    Mono p [TraceItem.publish st q] q := by
  unfold Mono
  simp [publishedProgress, List.chain'_cons, h, progLE_refl]

/-- The chain of published snapshots, extracted from a `Mono` anchor. -/
theorem chain_of_mono {p q : Progress} {t : List TraceItem} (h : Mono p t q) :
    List.Chain' ProgLE (publishedProgress t) := by
  unfold Mono at h
  have h1 := h.tail
  simp only [List.tail_cons] at h1
  exact h1.sublist (List.sublist_append_left _ _)

/-- One `shoot` publishes once, advancing only a frame counter. -/
theorem shoot_mono (env : Env) (c : Counters) (s : CaptureState) (m : String) :
    Mono s.progress (shoot env c s m).2.2 (shoot env c s m).2.1.progress := by
  cases hok : env.picture_results c.pictures <;>
    simp [Mono, shoot, hok, publishedProgress, List.chain'_cons, ProgLE,
      Nat.le_succ]

/-- `shoot` does not touch `current_bracket`. -/
theorem shoot_cb (env : Env) (c : Counters) (s : CaptureState) (m : String) :
    (shoot env c s m).2.1.progress.current_bracket =
      s.progress.current_bracket := by
  cases hok : env.picture_results c.pictures <;> simp [shoot, hok]

/-- The focus-stack loop publishes monotonically. -/
theorem focusLoop_mono (env : Env) (fs : FocusStackConfig) :
    ∀ (l : List ℕ) (c : Counters) (s : CaptureState) (total : ℤ),
      Mono s.progress (focusLoop env fs l c s total).2.2.2
        (focusLoop env fs l c s total).2.1.progress := by
  intro l
  induction l with
  | nil =>
    intro c s total
    exact mono_of_no_publish rfl (progLE_refl _)
  | cons idx rest ih =>
    intro c s total
    simp only [focusLoop]
    by_cases hidx : idx < fs.steps - 1
    · rw [if_pos hidx]
      by_cases hok : env.focus_results
          (shoot env c s "Failed to take picture (focus stack)").1.focuses = true
      · rw [if_pos hok]
        dsimp only
        exact mono_append (mono_append
          (shoot_mono env c s "Failed to take picture (focus stack)")
          (mono_of_no_publish rfl (progLE_refl _))) (ih _ _ _)
      · rw [if_neg hok]
        dsimp only
        exact mono_append
          (shoot_mono env c s "Failed to take picture (focus stack)")
          (mono_of_no_publish rfl (progLE_refl _))
    · rw [if_neg hidx]
      dsimp only
      exact mono_append
        (shoot_mono env c s "Failed to take picture (focus stack)") (ih _ _ _)

/-- The focus-stack loop does not touch `current_bracket`. -/
theorem focusLoop_cb (env : Env) (fs : FocusStackConfig) :
    ∀ (l : List ℕ) (c : Counters) (s : CaptureState) (total : ℤ),
      (focusLoop env fs l c s total).2.1.progress.current_bracket =
        s.progress.current_bracket := by
  intro l
  induction l with
  | nil => intro c s total; rfl
  | cons idx rest ih =>
    intro c s total
    simp only [focusLoop]
    by_cases hidx : idx < fs.steps - 1
    · rw [if_pos hidx]
      by_cases hok : env.focus_results
          (shoot env c s "Failed to take picture (focus stack)").1.focuses = true
      · rw [if_pos hok]
        dsimp only
        rw [ih, shoot_cb]
      · rw [if_neg hok]
        dsimp only
        rw [shoot_cb]
    · rw [if_neg hidx]
      dsimp only
      rw [ih, shoot_cb]

/-- The focus-stack frame publishes monotonically. -/
theorem focusStackFrame_mono (env : Env) (fs : FocusStackConfig) (c : Counters)
    (s : CaptureState) :
    Mono s.progress (focusStackFrame env fs c s).2.2
      (focusStackFrame env fs c s).2.1.progress := by
  unfold focusStackFrame
  dsimp only
  refine mono_append (mono_append (mono_append (focusLoop_mono env fs _ _ _ _)
    (mono_of_no_publish ?_ (progLE_refl _))) (shoot_mono env _ _ _))
    (mono_of_no_publish rfl (progLE_refl _))
  by_cases h0 : (focusLoop env fs (List.range fs.steps) c s 0).2.2.1 ≠ 0 <;>
    simp [h0, publishedProgress]

/-- The focus-stack frame does not touch `current_bracket`. -/
theorem focusStackFrame_cb (env : Env) (fs : FocusStackConfig) (c : Counters)
    (s : CaptureState) :
    (focusStackFrame env fs c s).2.1.progress.current_bracket =
      s.progress.current_bracket := by
  unfold focusStackFrame
  dsimp only
  rw [shoot_cb, focusLoop_cb]

/-- The frame loop publishes monotonically. -/
theorem framesLoop_mono (env : Env) (fs : FocusStackConfig) :
    ∀ (l : List ℕ) (c : Counters) (s : CaptureState),
      Mono s.progress (framesLoop env fs l c s).2.2.1
        (framesLoop env fs l c s).2.1.progress := by
  intro l
  induction l with
  | nil => intro c s; exact mono_of_no_publish rfl (progLE_refl _)
  | cons fidx rest ih =>
    intro c s
    simp only [framesLoop]
    by_cases hstop : env.stop_observed c.checks = true
    · rw [if_pos hstop]
      exact mono_publish _ (progLE_refl _)
    · rw [if_neg hstop]
      dsimp only
      have hle1 : ProgLE s.progress { s.progress with current_frame := fidx + 1 } :=
        ⟨le_refl _, le_refl _, le_refl _, le_refl _, le_refl _⟩
      by_cases hfs : fs.enabled = true
      · rw [if_pos hfs]
        exact mono_append (mono_append (mono_publish s.status hle1)
          (focusStackFrame_mono env fs { c with checks := c.checks + 1 }
            { s with progress := { s.progress with current_frame := fidx + 1 } }))
          (ih (focusStackFrame env fs { c with checks := c.checks + 1 }
              { s with progress := { s.progress with current_frame := fidx + 1 } }).1
            (focusStackFrame env fs { c with checks := c.checks + 1 }
              { s with progress := { s.progress with current_frame := fidx + 1 } }).2.1)
      · rw [if_neg hfs]
        exact mono_append (mono_append (mono_publish s.status hle1)
          (shoot_mono env { c with checks := c.checks + 1 }
            { s with progress := { s.progress with current_frame := fidx + 1 } }
            "Failed to take picture"))
          (ih (shoot env { c with checks := c.checks + 1 }
              { s with progress := { s.progress with current_frame := fidx + 1 } }
              "Failed to take picture").1
            (shoot env { c with checks := c.checks + 1 }
              { s with progress := { s.progress with current_frame := fidx + 1 } }
              "Failed to take picture").2.1)

/-- The frame loop does not touch `current_bracket`. -/
theorem framesLoop_cb (env : Env) (fs : FocusStackConfig) :
    ∀ (l : List ℕ) (c : Counters) (s : CaptureState),
      (framesLoop env fs l c s).2.1.progress.current_bracket =
        s.progress.current_bracket := by
  intro l
  induction l with
  | nil => intro c s; rfl
  | cons fidx rest ih =>
    intro c s
    simp only [framesLoop]
    by_cases hstop : env.stop_observed c.checks = true
    · rw [if_pos hstop]
    · rw [if_neg hstop]
      dsimp only
      by_cases hfs : fs.enabled = true
      · rw [if_pos hfs]
        rw [ih, focusStackFrame_cb]
      · rw [if_neg hfs]
        rw [ih, shoot_cb]

/-- The bracket loop publishes monotonically when the bracket indices
respect the lower-bound discipline. -/
theorem bracketsLoop_mono (env : Env) (fs : FocusStackConfig) :
    ∀ (l : List (ℕ × PlanBracket)) (c : Counters) (s : CaptureState),
      idxLB s.progress.current_bracket l →
      Mono s.progress (bracketsLoop env fs l c s).2.2.1
        (bracketsLoop env fs l c s).2.1.progress := by
  intro l
  induction l with
  | nil => intro c s _; exact mono_of_no_publish rfl (progLE_refl _)
  | cons hd rest ih =>
    rcases hd with ⟨bidx, b⟩
    intro c s hlb
    have hle : ProgLE s.progress
        { s.progress with current_bracket := bidx + 1, current_frame := 0 } :=
      ⟨le_trans hlb.1 (Nat.le_succ _), le_refl _, le_refl _, le_refl _, le_refl _⟩
    simp only [bracketsLoop]
    by_cases hok : env.apply_results c.applies = true
    · rw [if_pos hok]
      by_cases hst : (framesLoop env fs (List.range b.frames)
          { c with applies := c.applies + 1 }
          { s with progress :=
            { s.progress with current_bracket := bidx + 1, current_frame := 0 } }).2.2.2 = true
      · rw [if_pos hst]
        exact mono_append (mono_append (mono_publish s.status hle)
          (mono_of_no_publish rfl (progLE_refl _)))
          (framesLoop_mono env fs (List.range b.frames)
            { c with applies := c.applies + 1 }
            { s with progress :=
              { s.progress with current_bracket := bidx + 1, current_frame := 0 } })
      · rw [if_neg hst]
        dsimp only
        refine mono_append (mono_append (mono_append (mono_publish s.status hle)
          (mono_of_no_publish rfl (progLE_refl _)))
          (framesLoop_mono env fs (List.range b.frames)
            { c with applies := c.applies + 1 }
            { s with progress :=
              { s.progress with current_bracket := bidx + 1, current_frame := 0 } }))
          (ih (framesLoop env fs (List.range b.frames)
              { c with applies := c.applies + 1 }
              { s with progress :=
                { s.progress with current_bracket := bidx + 1, current_frame := 0 } }).1
            (framesLoop env fs (List.range b.frames)
              { c with applies := c.applies + 1 }
              { s with progress :=
                { s.progress with current_bracket := bidx + 1, current_frame := 0 } }).2.1
            ?_)
        rw [framesLoop_cb]
        exact hlb.2
    · rw [if_neg hok]
      refine mono_append (mono_append (mono_append (mono_publish s.status hle)
        (mono_of_no_publish rfl (progLE_refl _)))
        (mono_publish s.status (progLE_refl
          { s.progress with current_bracket := bidx + 1, current_frame := 0 })))
        (ih { c with applies := c.applies + 1 }
          { s with
            progress :=
              { s.progress with current_bracket := bidx + 1, current_frame := 0 },
            errors := s.errors ++
              ["Failed to apply settings for bracket " ++ toString (bidx + 1)] }
          ?_)
      exact hlb.2

/-- `enumFrom` respects any lower bound below its start. -/
theorem idxLB_enumFrom (l : List PlanBracket) :
    ∀ (n m : ℕ), m ≤ n → idxLB m (List.enumFrom n l) := by
  induction l with
  | nil => intro n m _; trivial
  | cons b rest ih =>
    intro n m hm
    exact ⟨hm, ih (n + 1) (n + 1) (le_refl _)⟩

/-- `watermark` does not touch the progress record. -/
theorem watermark_progress (env : Env) (fast : Bool) (c : Counters)
    (s : CaptureState) : (watermark env fast c s).2.progress = s.progress := by
  unfold watermark
  by_cases hf : fast = true
  · rw [if_pos hf]
    cases env.count_results c.counts <;> rfl
  · rw [if_neg hf]

end CaptureController

namespace CaptureController

/-- Appending a publication of the current progress preserves `Mono`. -/
theorem mono_snoc_publish {p q : Progress} {t : List TraceItem} (st : Status)
    (h : Mono p t q) : Mono p (t ++ [TraceItem.publish st q]) q :=
  mono_append h (mono_publish st (progLE_refl q))

/-- The whole worker publishes `ProgLE`-monotonically, from the freshly
created progress record to the final one. -/
theorem execute_mono (env : Env) (id : String) (plan : Plan) :
    Mono (workerInit id plan).progress (execute_capture_sequence env id plan).2.2
      (execute_capture_sequence env id plan).2.1.progress := by
  unfold execute_capture_sequence
  dsimp only
  by_cases hsess : env.session_results Counters.init.sessions = true
  · rw [if_pos hsess]
    have hloop := bracketsLoop_mono env plan.focus_stack plan.brackets.enum
      (watermark env (plan.capture_mode = "fast")
        { Counters.init with sessions := Counters.init.sessions + 1 }
        (workerInit id plan)).1
      (watermark env (plan.capture_mode = "fast")
        { Counters.init with sessions := Counters.init.sessions + 1 }
        (workerInit id plan)).2
      (by rw [watermark_progress]
          exact idxLB_enumFrom plan.brackets 0 0 (le_refl 0))
    rw [watermark_progress] at hloop
    by_cases hst : (bracketsLoop env plan.focus_stack plan.brackets.enum
        (watermark env (plan.capture_mode = "fast")
          { Counters.init with sessions := Counters.init.sessions + 1 }
          (workerInit id plan)).1
        (watermark env (plan.capture_mode = "fast")
          { Counters.init with sessions := Counters.init.sessions + 1 }
          (workerInit id plan)).2).2.2.2 = true
    · rw [if_pos hst]
      exact mono_append (mono_publish _ (progLE_refl _)) hloop
    · rw [if_neg hst]
      by_cases hfast : plan.capture_mode = "fast"
      · rw [if_pos hfast]
        split
        all_goals try split
        all_goals try split
        all_goals try split
        all_goals
          exact mono_snoc_publish _ (mono_snoc_publish _
            (mono_append (mono_publish _ (progLE_refl _)) hloop))
      · rw [if_neg hfast]
        exact mono_snoc_publish _
          (mono_append (mono_publish _ (progLE_refl _)) hloop)
  · rw [if_neg hsess]
    exact mono_snoc_publish _ (mono_publish _ (progLE_refl _))

/-- C9 amended: over the whole execution of any plan against any
device behaviour, the published snapshots of the progress fields other
than `current_frame` (current_bracket, total_brackets, total_frames,
completed_frames, failed_frames) form a monotonically nondecreasing
sequence — they are only ever advanced, never decreased, by the
session's worker.  (`current_frame` is excluded: the worker resets it
to 0 at the start of every bracket, see the counterexample.) -/
theorem C9_amended_monotone (env : Env) (id : String) (plan : Plan) :
    List.Chain' ProgLE
      (publishedProgress (execute_capture_sequence env id plan).2.2) :=
  chain_of_mono (execute_mono env id plan)

end CaptureController

namespace ExposureCalculator

/-- In the shutter-priority branch, settings derivation always succeeds
on a nonnegative ISO, and the returned shutter speed is the fixed
preferred value "1/60". -/
theorem get_settings_shutter_isSome (ev : ℝ) (iso pa : ℚ) (hiso : 0 ≤ iso) :
    ∃ st, get_settings_for_ev ev iso "shutter" pa = some st ∧
      st.shutter_speed = "1/60" := by
  unfold get_settings_for_ev
  rw [if_neg (by decide : ¬("shutter" = "aperture")), if_pos rfl]
  dsimp only
  have h60 : shutterToSeconds "1/60" = 1 / 60 := by decide
  rw [h60, if_neg (not_lt.mpr (by
    have hisoR : (0 : ℝ) ≤ (iso : ℝ) := by exact_mod_cast hiso
    have hr : (0 : ℝ) ≤ (2 : ℝ) ^ ev :=
      le_of_lt (Real.rpow_pos_of_pos (by norm_num) ev)
    have hq : (0 : ℝ) ≤ (((1 : ℚ) / 60 : ℚ) : ℝ) := by positivity
    exact div_nonneg (mul_nonneg (mul_nonneg hisoR hq) hr) (by norm_num)))]
  exact ⟨_, rfl, rfl⟩

/-- C8 counterexample: for the valid triple ISO 100, f/8, 1/1000 (EV
radicand 64000), composing `calculate_ev` with `get_settings_for_ev` at
the resulting EV under shutter priority returns the fixed shutter
"1/60", which is four full-stop table positions away from the original
"1/1000" — not within one quantization step. -/
theorem C8_counterexample :
    calculate_ev 100 8 "1/1000" = some (Real.logb 2 ((64000 : ℚ) : ℝ)) ∧
    (get_settings_for_ev (Real.logb 2 ((64000 : ℚ) : ℝ)) 100 "shutter" 8).map
      (fun st => st.shutter_speed) = some "1/60" ∧
    ¬ withinOneStop "1/60" "1/1000" := by
  refine ⟨?_, ?_, by unfold withinOneStop stopIndex; decide⟩
  · simp [calculate_ev, (by decide : evRadicand 100 8 "1/1000" = some 64000)]
  · rcases get_settings_shutter_isSome (Real.logb 2 ((64000 : ℚ) : ℝ)) 100 8
      (by norm_num) with ⟨st, hst, hsh⟩
    rw [hst]
    simp [hsh]

/-- C8 amended: under shutter priority the composition of
`calculate_ev` with `get_settings_for_ev` at the resulting EV does not
reproduce the original shutter speed; it always returns the fixed
preferred shutter "1/60", whatever the original valid triple was (the
EV is absorbed by the solved-and-snapped aperture instead). -/
theorem C8_amended (iso aperture : ℚ) (shutter : String) (pa : ℚ) (ev : ℝ)
    (hiso : 0 ≤ iso) (hev : calculate_ev iso aperture shutter = some ev) :
    (get_settings_for_ev ev iso "shutter" pa).map (fun st => st.shutter_speed) =
      some "1/60" := by
  rcases get_settings_shutter_isSome ev iso pa hiso with ⟨st, hst, hsh⟩
  rw [hst]
  simp [hsh]

/-- C8 witness: the composition evaluated at ISO 100, f/8, 1/125 (EV
radicand 8000): the returned shutter is "1/60". -/
theorem C8_amended_witness :
    calculate_ev 100 8 "1/125" = some (Real.logb 2 ((8000 : ℚ) : ℝ)) ∧
    (get_settings_for_ev (Real.logb 2 ((8000 : ℚ) : ℝ)) 100 "shutter" 8).map
      (fun st => st.shutter_speed) = some "1/60" := by
  have hce : calculate_ev 100 8 "1/125" = some (Real.logb 2 ((8000 : ℚ) : ℝ)) := by
    simp [calculate_ev, (by decide : evRadicand 100 8 "1/125" = some 8000)]
  exact ⟨hce, C8_amended 100 8 "1/125" 8 (Real.logb 2 ((8000 : ℚ) : ℝ))
    (by norm_num) hce⟩

end ExposureCalculator

namespace ExposureCalculator

/-- When settings derivation succeeds on every ladder value, the
generated brackets recover exactly the ladder: one entry per value, and
`base_ev - ev_diff` gives the planned EV back. -/
theorem filterMap_planned (L : ℝ) (iso pa : ℚ) (priority : String) :
    ∀ evs : List ℝ,
      (∀ ev ∈ evs, (get_settings_for_ev ev iso priority pa).isSome) →
      (evs.filterMap (fun ev => (get_settings_for_ev ev iso priority pa).map
          (fun st => ({ settings := st, name := bracketName (L - ev),
                        ev_diff := L - ev } : EvBracket)))).map
        (fun b => L - b.ev_diff) = evs := by
  intro evs
  induction evs with
  | nil => intro _; rfl
  | cons ev rest ih =>
    intro h
    have hev := h ev (List.mem_cons_self ev rest)
    cases hst : get_settings_for_ev ev iso priority pa with
    | none => rw [hst] at hev; exact absurd hev (by simp)
    | some st =>
      rw [List.filterMap_cons_some (by rw [hst]; rfl), List.map_cons,
        ih (fun x hx => h x (List.mem_cons_of_mem ev hx))]
      simp [sub_sub_cancel]

/-- C3 counterexample: with EV step 0 (allowed by the claim, which
quantifies over every step) and count 2, the two generated entries
share the same planned EV — the ladder values are equal, not strictly
decreasing. -/
theorem C3_counterexample :
    (generate_brackets_by_ev baseEvZero 0 2 "shutter").map (fun b => b.ev_diff) =
      [0, 0] ∧
    ¬ (plannedEVs (Real.logb 2 ((1 : ℚ) : ℝ))
        (generate_brackets_by_ev baseEvZero 0 2 "shutter")).Pairwise
        (fun a b => a > b) := by
  have hb : Real.logb 2 ((1 : ℚ) : ℝ) = 0 := by
    rw [Rat.cast_one, Real.logb_one]
  have hce : calculate_ev baseEvZero.iso baseEvZero.aperture
      baseEvZero.shutter_speed = some 0 := by
    simp [calculate_ev, baseEvZero, (by decide : evRadicand 100 8 "64" = some 1),
      Real.logb_one]
  rcases get_settings_shutter_isSome 0 100 8 (by norm_num) with ⟨st, hst, _⟩
  have hgen : generate_brackets_by_ev baseEvZero 0 2 "shutter" =
      [{ settings := st, name := bracketName 0, ev_diff := 0 },
       { settings := st, name := bracketName 0, ev_diff := 0 }] := by
    simp only [generate_brackets_by_ev, hce]
    have hlad : ladderStart 0 0 2 = 0 := by
      unfold ladderStart
      norm_num
    simp [hlad, List.range_succ,
      show (get_settings_for_ev 0 baseEvZero.iso "shutter" baseEvZero.aperture) =
        some st from hst]
  rw [hgen]
  constructor
  · simp
  · rw [hb]
    simp only [plannedEVs, List.map_cons, List.map_nil]
    intro hpw
    have h2 := List.rel_of_pairwise_cons hpw (List.mem_singleton.mpr rfl)
    simp at h2

end ExposureCalculator

namespace ExposureCalculator

/-- C3 amended: for every base triple with a computable EV (radicand
`q`), every POSITIVE EV step, every count `N ≥ 1`, and any priority for
which settings derivation succeeds at each ladder value,
`generate_brackets_by_ev` returns exactly N entries whose planned EV
values are exactly the ladder `start - i * step` for `i` in `[0, N)` —
strictly decreasing — with `start = baseEV + step * (N / 2)` for odd N
and `start = baseEV + step * ((N - 1) / 2) + step / 2` for even N
(`ladderStart`).  The positivity of the step is the amendment: with
step 0 (or negative) the claimed strict decrease fails, see the
counterexample. -/
theorem C3_amended (base : BaseSettings) (ev_steps : ℝ) (num_brackets : ℕ)
    (priority : String) (q : ℚ)
    (hq : evRadicand base.iso base.aperture base.shutter_speed = some q)
    (hpos : 0 < ev_steps) (hN : 1 ≤ num_brackets)
    (hsome : ∀ i, i < num_brackets →
      (get_settings_for_ev
        (ladderStart (Real.logb 2 ((q : ℚ) : ℝ)) ev_steps num_brackets -
          (i : ℝ) * ev_steps)
        base.iso priority base.aperture).isSome) :
    (generate_brackets_by_ev base ev_steps num_brackets priority).length =
      num_brackets ∧
    plannedEVs (Real.logb 2 ((q : ℚ) : ℝ))
        (generate_brackets_by_ev base ev_steps num_brackets priority) =
      (List.range num_brackets).map
        (fun i : ℕ => ladderStart (Real.logb 2 ((q : ℚ) : ℝ)) ev_steps num_brackets -
          (i : ℝ) * ev_steps) ∧
    (plannedEVs (Real.logb 2 ((q : ℚ) : ℝ))
        (generate_brackets_by_ev base ev_steps num_brackets priority)).Pairwise
      (fun a b => a > b) := by
  have hce : calculate_ev base.iso base.aperture base.shutter_speed =
      some (Real.logb 2 ((q : ℚ) : ℝ)) := by
    simp [calculate_ev, hq]
  have hgen : generate_brackets_by_ev base ev_steps num_brackets priority =
      ((List.range num_brackets).map (fun i : ℕ =>
        ladderStart (Real.logb 2 ((q : ℚ) : ℝ)) ev_steps num_brackets -
          (i : ℝ) * ev_steps)).filterMap
        (fun ev => (get_settings_for_ev ev base.iso priority base.aperture).map
          (fun st =>
            { settings := st,
              name := bracketName (Real.logb 2 ((q : ℚ) : ℝ) - ev),
              ev_diff := Real.logb 2 ((q : ℚ) : ℝ) - ev })) := by
    simp only [generate_brackets_by_ev, hce]
  have hall : ∀ ev ∈ (List.range num_brackets).map (fun i : ℕ =>
      ladderStart (Real.logb 2 ((q : ℚ) : ℝ)) ev_steps num_brackets -
        (i : ℝ) * ev_steps),
      (get_settings_for_ev ev base.iso priority base.aperture).isSome := by
    intro ev hev
    rcases List.mem_map.mp hev with ⟨i, hi, hfi⟩
    subst hfi
    exact hsome i (List.mem_range.mp hi)
  have hplanned := filterMap_planned (Real.logb 2 ((q : ℚ) : ℝ)) base.iso
    base.aperture priority _ hall
  have hpl : plannedEVs (Real.logb 2 ((q : ℚ) : ℝ))
      (generate_brackets_by_ev base ev_steps num_brackets priority) =
      (List.range num_brackets).map (fun i : ℕ =>
        ladderStart (Real.logb 2 ((q : ℚ) : ℝ)) ev_steps num_brackets -
          (i : ℝ) * ev_steps) := by
    rw [hgen]
    exact hplanned
  refine ⟨?_, hpl, ?_⟩
  · have hlen := congrArg List.length hpl
    rw [List.length_map, List.length_range] at hlen
    simpa [plannedEVs, List.length_map] using hlen
  · rw [hpl, List.pairwise_map]
    exact (List.pairwise_lt_range num_brackets).imp
      (fun hab => sub_lt_sub_left
        (mul_lt_mul_of_pos_right (by exact_mod_cast hab) hpos) _)

/-- C3 witness: the amended claim evaluated at the base triple ISO 100,
f/8, 64s (base EV exactly 0), step 1, count 3, shutter priority: three
entries are generated. -/
theorem C3_amended_witness :
    (generate_brackets_by_ev baseEvZero 1 3 "shutter").length = 3 := by
  have h := C3_amended baseEvZero 1 3 "shutter" 1 (by decide) (by norm_num)
    (by norm_num)
    (fun i _ => by
      show (get_settings_for_ev _ 100 "shutter" 8).isSome
      rcases get_settings_shutter_isSome
        (ladderStart (Real.logb 2 ((1 : ℚ) : ℝ)) 1 3 - (i : ℝ) * 1) 100 8
        (by norm_num) with ⟨st, hst, _⟩
      rw [hst]
      rfl)
  exact h.1

end ExposureCalculator
